import Mathlib

/-!
Verification development for the Nexus-Bot web session tier: the session
lifecycle / handoff coordinator (`src/whatsapp/sessions/manager.js`), the
dual-backend storage coordinator (`src/whatsapp/storage/coordinator.js`) and
the two backend adapters (`MongoDBStorage`, `PostgreSQLStorage`).

The JavaScript source is shallowly embedded: each method becomes a pure Lean
function over an explicit state record.  JavaScript `Map`s and `Set`s become
association lists / string lists with the usual keyed operations; `undefined`
is `Option.none`; the handful of fields that can hold arbitrary JS values
(notably the persisted `detected` flag) are given a small JS-value type.
Timestamps (`createdAt`/`updatedAt`) are elided: no verified property reads
them.  Callbacks are modelled by presence flags plus an effect trace emitted
by the handlers; timers appear in the trace as schedule effects, with the
timer bodies embedded as separate functions.
-/

/-- A small universe of JavaScript values, for fields that the source reads
with `!== false` style checks where the stored value is not statically a
boolean (the persisted `detected` flag, which another process may write). -/
inductive JValue where
  | jundef
  | jnull
  | jbool (b : Bool)
  | jstr (s : String)
  | jnum (n : Int)
  deriving DecidableEq

/-- JavaScript `v !== false`: true unless the value is exactly the boolean
`false`.  Used by both adapters and the coordinator for `detected`. -/
def neqFalse : JValue → Bool
  | .jbool false => false
  | _ => true

/-- JavaScript `a || b` on possibly-absent strings: the empty string is falsy. -/
def jsOrStr : Option String → Option String → Option String
  | some s, b => if s == "" then b else some s
  | none, b => b

/-- JavaScript `a || d` where `d` is a string default. -/
def strOr (o : Option String) (d : String) : String :=
  match o with
  | some s => if s == "" then d else s
  | none => d

/-- JavaScript truthiness of a possibly-absent string (`!s` is true for
`undefined`, `null` and `""`). -/
def jsTruthy : Option String → Bool
  | some s => !(s == "")
  | none => false

section KeyedLists

variable {A : Type}

/-- `Map.get` on an association list keyed by strings (first match). -/
def mapGet (l : List (String × A)) (k : String) : Option A :=
  match l with
  | [] => none
  | (k0, v) :: t => if k0 == k then some v else mapGet t k

/-- `Map.set`: replace the existing entry for the key, else append. -/
def mapSet (l : List (String × A)) (k : String) (v : A) : List (String × A) :=
  match l with
  | [] => [(k, v)]
  | (k0, v0) :: t => if k0 == k then (k, v) :: t else (k0, v0) :: mapSet t k v

/-- `Map.delete`: remove every entry for the key (with unique keys this is
the single entry the JS `Map` holds). -/
def mapErase (l : List (String × A)) (k : String) : List (String × A) :=
  l.filter (fun p => !(p.1 == k))

/-- `Set.add` on a list of strings. -/
def setInsert (l : List String) (s : String) : List String :=
  if l.contains s then l else s :: l

/-- `Set.delete` on a list of strings. -/
def setErase (l : List String) (s : String) : List String :=
  l.filter (fun x => !(x == s))

/-- Whether the keys of an association list are pairwise distinct (a JS `Map`
invariant). -/
def keysNodup : List (String × A) → Bool
  | [] => true
  | (k, _) :: t => !(t.any (fun p => p.1 == k)) && keysNodup t

/-- Number of entries for a given key. -/
def countKey (l : List (String × A)) (k : String) : Nat :=
  (l.filter (fun p => p.1 == k)).length

end KeyedLists

/-- The callbacks object passed to `createSession`; the handlers only test
presence (`if (callbacks.onError)`), so presence flags suffice. -/
structure Callbacks where
  hasOnConnected : Bool
  hasOnError : Bool
  deriving DecidableEq

/-- A connection-provider handle (Baileys socket) as observed by the manager:
`user` is the paired identity, `readyOpen` models
`sock.readyState === sock.ws?.OPEN`, `wsReadyState` the underlying
`sock.ws.socket._readyState`, `closedWith` the close code passed to
`sock.ws.close`, and the remaining fields the listener/buffer state that
`_cleanupSocketOnly` clears. -/
structure Socket where
  user : Option String
  readyOpen : Bool
  buffering : Bool
  listeners : Bool
  wsReadyState : Nat
  closedWith : Option Nat
  connectionCallbacks : Option Callbacks
  deriving DecidableEq

/-- In-process per-session state (`sessionState` registry entries as seeded by
`createSession`).  The `SessionState` class itself (`sessions/state.js`) is not
among the provided sources; modelled from the spec, section 3, as a
sessionId-keyed map of these records. -/
structure SessState where
  userId : String
  phoneNumber : Option String
  source : String
  isConnected : Bool
  connectionStatus : String
  callbacks : Callbacks
  deriving DecidableEq

/-- A document of the MongoDB `sessions` collection, exactly the shape written
by `MongoDBStorage.saveSession` (timestamps elided).  `detected` is kept as a
raw JS value because reads apply `!== false` to it. -/
structure MongoDoc where
  sessionId : String
  telegramId : Option String
  phoneNumber : Option String
  isConnected : Bool
  connectionStatus : String
  reconnectAttempts : Nat
  source : String
  detected : JValue
  deriving DecidableEq

/-- A row of the PostgreSQL `users` table (columns used by the adapter;
timestamps elided).  `detected` is a nullable SQL boolean. -/
structure PgRow where
  telegramId : String
  sessionId : Option String
  phoneNumber : Option String
  isConnected : Bool
  connectionStatus : String
  reconnectAttempts : Nat
  source : String
  detected : Option Bool
  deriving DecidableEq

/-- A document of the MongoDB `auth_baileys` collection (a credential blob):
keyed by `(sessionId, filename)` with an opaque payload. -/
structure AuthDoc where
  sessionId : String
  filename : String
  datajson : String
  deriving DecidableEq

/-- The session object returned by adapter reads and by the coordinator
(`_formatSessionData` output shape). -/
structure SessionView where
  sessionId : String
  userId : Option String
  telegramId : Option String
  phoneNumber : Option String
  isConnected : Bool
  connectionStatus : String
  reconnectAttempts : Nat
  source : String
  detected : Bool
  deriving DecidableEq

/-- The `sessionData` argument of `saveSession`: a JS object whose fields may
be absent (`none` = `undefined`). -/
structure SessionData where
  userId : Option String
  telegramId : Option String
  phoneNumber : Option String
  isConnected : Option Bool
  connectionStatus : Option String
  reconnectAttempts : Option Nat
  source : Option String
  detected : JValue
  deriving DecidableEq

/-- The `updates` argument of `updateSession`.  `phoneNumber` distinguishes
absent (`none`) from an explicit `null` (`some none`), since the open handler
passes `... || null`. -/
structure UpdateData where
  isConnected : Option Bool
  connectionStatus : Option String
  phoneNumber : Option (Option String)
  reconnectAttempts : Option Nat
  source : Option String
  detected : Option Bool
  deriving DecidableEq

/-- The update object used by every close-path `updateSession` call that only
marks connection state. -/
def updNothing : UpdateData :=
  { isConnected := none, connectionStatus := none, phoneNumber := none
    reconnectAttempts := none, source := none, detected := none }

/-- State of the two storage backends: connectivity flags plus the persisted
collections. -/
structure StoreState where
  mongoConnected : Bool
  pgConnected : Bool
  mongoSessions : List MongoDoc
  pgUsers : List PgRow
  authBlobs : List AuthDoc
  deriving DecidableEq

/-! ## MongoDB adapter (`MongoDBStorage`, src/unnamed/part_000) -/

/-- The document built by `MongoDBStorage.saveSession` from its input
(`const document = {...}`), before the `replaceOne` upsert. -/
def mongoDocOf (sessionId : String) (d : SessionData) : MongoDoc :=
  { sessionId := sessionId
    telegramId := jsOrStr d.telegramId d.userId
    phoneNumber := d.phoneNumber
    isConnected := d.isConnected.getD false
    connectionStatus := strOr d.connectionStatus "disconnected"
    reconnectAttempts := d.reconnectAttempts.getD 0
    source := strOr d.source "web"
    detected := .jbool (neqFalse d.detected) }

/-- `replaceOne({sessionId}, document, {upsert:true})`: replace the first
matching document, else append. -/
def mongoReplaceOne : List MongoDoc → String → MongoDoc → List MongoDoc
  | [], _, doc => [doc]
  | d :: t, sid, doc =>
      if d.sessionId == sid then doc :: t else d :: mongoReplaceOne t sid doc

/-- `MongoDBStorage.saveSession`.  The `err` flag models a thrown driver
error (caught, returning `false`). -/
def mongoSaveSession (st : StoreState) (err : Bool) (sessionId : String)
    (d : SessionData) : StoreState × Bool :=
  if !st.mongoConnected then (st, false)
  else if err then (st, false)
  else ({ st with mongoSessions :=
            mongoReplaceOne st.mongoSessions sessionId (mongoDocOf sessionId d) },
        true)

/-- `findOne({sessionId})`: first matching document. -/
def findDoc : List MongoDoc → String → Option MongoDoc
  | [], _ => none
  | d :: t, sid => if d.sessionId == sid then some d else findDoc t sid

/-- The update applied by `MongoDBStorage.updateSession`: each allowed field
is copied when not `undefined`. -/
def applyMongoUpd (doc : MongoDoc) (u : UpdateData) : MongoDoc :=
  { doc with
    isConnected := u.isConnected.getD doc.isConnected
    connectionStatus := u.connectionStatus.getD doc.connectionStatus
    phoneNumber := match u.phoneNumber with
      | some v => v
      | none => doc.phoneNumber
    reconnectAttempts := u.reconnectAttempts.getD doc.reconnectAttempts
    source := u.source.getD doc.source
    detected := match u.detected with
      | some b => .jbool b
      | none => doc.detected }

/-- `updateOne({sessionId}, {$set: updateDoc})`: update the first matching
document only. -/
def mongoUpdFirst : List MongoDoc → String → UpdateData → List MongoDoc
  | [], _, _ => []
  | d :: t, sid, u =>
      if d.sessionId == sid then applyMongoUpd d u :: t
      else d :: mongoUpdFirst t sid u

/-- `MongoDBStorage.updateSession`: returns `modifiedCount > 0 ||
matchedCount > 0`, i.e. whether a document matched. -/
def mongoUpdateSession (st : StoreState) (err : Bool) (sessionId : String)
    (u : UpdateData) : StoreState × Bool :=
  if !st.mongoConnected then (st, false)
  else if err then (st, false)
  else ({ st with mongoSessions := mongoUpdFirst st.mongoSessions sessionId u },
        st.mongoSessions.any (fun d => d.sessionId == sessionId))

/-- `deleteOne({sessionId})`: remove the first matching document. -/
def mongoEraseFirst : List MongoDoc → String → List MongoDoc
  | [], _ => []
  | d :: t, sid => if d.sessionId == sid then t else d :: mongoEraseFirst t sid

/-- `MongoDBStorage.deleteSession`: `deletedCount > 0`. -/
def mongoDeleteSession (st : StoreState) (sessionId : String) :
    StoreState × Bool :=
  if !st.mongoConnected then (st, false)
  else ({ st with mongoSessions := mongoEraseFirst st.mongoSessions sessionId },
        st.mongoSessions.any (fun d => d.sessionId == sessionId))

/-- `MongoDBStorage.deleteAuthState`: `deleteMany({sessionId})` over the
`auth_baileys` collection; returns `deletedCount > 0`. -/
def mongoDeleteAuthState (st : StoreState) (sessionId : String) :
    StoreState × Bool :=
  if !st.mongoConnected then (st, false)
  else ({ st with authBlobs :=
            st.authBlobs.filter (fun b => !(b.sessionId == sessionId)) },
        st.authBlobs.any (fun b => b.sessionId == sessionId))

/-- The session object returned by `MongoDBStorage.getSession`. -/
def mongoViewOfDoc (d : MongoDoc) : SessionView :=
  { sessionId := d.sessionId
    userId := d.telegramId
    telegramId := d.telegramId
    phoneNumber := d.phoneNumber
    isConnected := d.isConnected
    connectionStatus := d.connectionStatus
    reconnectAttempts := d.reconnectAttempts
    source := if d.source == "" then "web" else d.source
    detected := neqFalse d.detected }

/-- `MongoDBStorage.getSession`. -/
def mongoGetSession (st : StoreState) (sessionId : String) :
    Option SessionView :=
  if !st.mongoConnected then none
  else (findDoc st.mongoSessions sessionId).map mongoViewOfDoc

/-- `MongoDBStorage.getAllSessions` (the `updatedAt` sort is elided along
with timestamps; membership and shape are what the claims consume). -/
def mongoGetAllSessions (st : StoreState) : List SessionView :=
  if !st.mongoConnected then []
  else st.mongoSessions.map mongoViewOfDoc

/-- Single-character global replacement, embedding `.replace(/c/g, r)`. -/
def replaceOne (c r : Char) : List Char → List Char
  | [] => []
  | x :: t => (if x == c then r else x) :: replaceOne c r t

/-- Global non-overlapping replacement of `"::"` by `"__"`, embedding
`.replace(/::/g, "__")`. -/
def replaceColonColon : List Char → List Char
  | [] => []
  | [x] => [x]
  | x :: y :: t =>
      if x == ':' && y == ':' then '_' :: '_' :: replaceColonColon t
      else x :: replaceColonColon (y :: t)

/-- The credential-name sanitization used by `readAuthData` / `writeAuthData`:
replace `::` with `__`, then `:` with `-`, then `/` and `\` with `_`. -/
def sanitizeFileName (s : String) : String :=
  String.mk (replaceOne '\\' '_'
    (replaceOne '/' '_' (replaceOne ':' '-' (replaceColonColon s.data))))

/-- First blob matching `{sessionId, filename}` (`findOne`). -/
def findBlob : List AuthDoc → String → String → Option AuthDoc
  | [], _, _ => none
  | b :: t, sid, k =>
      if b.sessionId == sid && b.filename == k then some b
      else findBlob t sid k

/-- `updateOne({sessionId, filename}, {$set: ...}, {upsert:true})`. -/
def upsertBlob : List AuthDoc → String → String → String → List AuthDoc
  | [], sid, k, dat => [{ sessionId := sid, filename := k, datajson := dat }]
  | b :: t, sid, k, dat =>
      if b.sessionId == sid && b.filename == k then
        { sessionId := sid, filename := k, datajson := dat } :: t
      else b :: upsertBlob t sid k dat

/-- `MongoDBStorage.readAuthData`. -/
def mongoReadAuthData (st : StoreState) (sessionId fileName : String) :
    Option String :=
  if !st.mongoConnected then none
  else (findBlob st.authBlobs sessionId (sanitizeFileName fileName)).map
    (fun b => b.datajson)

/-- `MongoDBStorage.writeAuthData`; `err` models a thrown driver error. -/
def mongoWriteAuthData (st : StoreState) (err : Bool)
    (sessionId fileName data : String) : StoreState × Bool :=
  if !st.mongoConnected then (st, false)
  else if err then (st, false)
  else ({ st with authBlobs :=
            upsertBlob st.authBlobs sessionId (sanitizeFileName fileName) data },
        true)

/-! ## PostgreSQL adapter (`PostgreSQLStorage`, src/unnamed/part_001) -/

/-- The row inserted by `PostgreSQLStorage.saveSession` (before the
`ON CONFLICT` merge). -/
def pgRowOf (tid sessionId : String) (d : SessionData) : PgRow :=
  { telegramId := tid
    sessionId := some sessionId
    phoneNumber := d.phoneNumber
    isConnected := d.isConnected.getD false
    connectionStatus := strOr d.connectionStatus "disconnected"
    reconnectAttempts := d.reconnectAttempts.getD 0
    source := strOr d.source "web"
    detected := some (neqFalse d.detected) }

/-- The `ON CONFLICT (telegram_id) DO UPDATE` upsert; `phone_number` takes
`COALESCE(EXCLUDED.phone_number, users.phone_number)`. -/
def pgUpsert (rows : List PgRow) (nr : PgRow) : List PgRow :=
  if rows.any (fun r => r.telegramId == nr.telegramId) then
    rows.map (fun r =>
      if r.telegramId == nr.telegramId then
        { nr with phoneNumber := match nr.phoneNumber with
            | some p => some p
            | none => r.phoneNumber }
      else r)
  else rows ++ [nr]

/-- `PostgreSQLStorage.saveSession`.  `parseInt` of an absent
`telegramId || userId` is `NaN` and the insert errors out, returning
`false`; numeric parsing itself is elided (ids are kept as strings). -/
def pgSaveSession (st : StoreState) (err : Bool) (sessionId : String)
    (d : SessionData) : StoreState × Bool :=
  if !st.pgConnected then (st, false)
  else if err then (st, false)
  else
    match jsOrStr d.telegramId d.userId with
    | none => (st, false)
    | some tid =>
        ({ st with pgUsers := pgUpsert st.pgUsers (pgRowOf tid sessionId d) },
         true)

/-- The `SET` clause of `PostgreSQLStorage.updateSession`; note
`connectionStatus` is guarded by truthiness (`if (updates.connectionStatus)`)
while the other fields use `!== undefined`. -/
def applyPgUpd (r : PgRow) (u : UpdateData) : PgRow :=
  { r with
    isConnected := u.isConnected.getD r.isConnected
    connectionStatus := match u.connectionStatus with
      | some s => if s == "" then r.connectionStatus else s
      | none => r.connectionStatus
    phoneNumber := match u.phoneNumber with
      | some v => v
      | none => r.phoneNumber
    reconnectAttempts := u.reconnectAttempts.getD r.reconnectAttempts
    detected := match u.detected with
      | some b => some b
      | none => r.detected }

/-- Whether any `SET` part is built (`setParts.length > 0`). -/
def pgAnySet (u : UpdateData) : Bool :=
  u.isConnected.isSome
    || (match u.connectionStatus with
        | some s => !(s == "")
        | none => false)
    || u.phoneNumber.isSome
    || u.reconnectAttempts.isSome
    || u.detected.isSome

/-- `PostgreSQLStorage.updateSession`: updates every row with this
`session_id`; returns `rowCount > 0`. -/
def pgUpdateSession (st : StoreState) (err : Bool) (sessionId : String)
    (u : UpdateData) : StoreState × Bool :=
  if !st.pgConnected then (st, false)
  else if err then (st, false)
  else if pgAnySet u then
    ({ st with pgUsers := st.pgUsers.map (fun r =>
          if r.sessionId == some sessionId then applyPgUpd r u else r) },
     st.pgUsers.any (fun r => r.sessionId == some sessionId))
  else (st, false)

/-- `PostgreSQLStorage.completelyDeleteSession`: `DELETE FROM users WHERE
session_id = $1`; returns `rowCount > 0`. -/
def pgCompletelyDeleteSession (st : StoreState) (sessionId : String) :
    StoreState × Bool :=
  if !st.pgConnected then (st, false)
  else ({ st with pgUsers :=
            st.pgUsers.filter (fun r => !(r.sessionId == some sessionId)) },
        st.pgUsers.any (fun r => r.sessionId == some sessionId))

/-- The session object returned for one row by
`PostgreSQLStorage.getSession` / `getAllSessions`. -/
def pgViewOfRow (r : PgRow) : SessionView :=
  { sessionId := r.sessionId.getD ""
    userId := some r.telegramId
    telegramId := some r.telegramId
    phoneNumber := r.phoneNumber
    isConnected := r.isConnected
    connectionStatus := if r.connectionStatus == "" then "disconnected"
      else r.connectionStatus
    reconnectAttempts := r.reconnectAttempts
    source := if r.source == "" then "web" else r.source
    detected := !(r.detected == some false) }

/-- `PostgreSQLStorage.getSession` (`WHERE session_id = $1`, first row). -/
def pgGetSession (st : StoreState) (sessionId : String) : Option SessionView :=
  if !st.pgConnected then none
  else ((st.pgUsers.find? (fun r => r.sessionId == some sessionId)).map
    pgViewOfRow)

/-- `PostgreSQLStorage.getAllSessions` (`WHERE session_id IS NOT NULL`; the
`updated_at` ordering is elided with timestamps). -/
def pgGetAllSessions (st : StoreState) : List SessionView :=
  if !st.pgConnected then []
  else (st.pgUsers.filter (fun r => r.sessionId.isSome)).map pgViewOfRow

/-! ## Storage coordinator (`SessionStorage`, src/whatsapp/storage/coordinator.js) -/

/-- `SessionStorage._formatSessionData` (on a non-null session object). -/
def formatSessionData (v : SessionView) : SessionView :=
  { sessionId := v.sessionId
    userId := jsOrStr v.userId v.telegramId
    telegramId := jsOrStr v.telegramId v.userId
    phoneNumber := v.phoneNumber
    isConnected := v.isConnected
    connectionStatus := if v.connectionStatus == "" then "disconnected"
      else v.connectionStatus
    reconnectAttempts := v.reconnectAttempts
    source := if v.source == "" then "web" else v.source
    detected := !(v.detected == false) }

/-- `SessionStorage.saveSession`: attempted on every connected backend,
overall success is the logical OR.  `mErr`/`pErr` model driver errors inside
the respective adapters. -/
def coordSaveSession (st : StoreState) (mErr pErr : Bool) (sessionId : String)
    (d : SessionData) : StoreState × Bool :=
  let mres := if st.mongoConnected then mongoSaveSession st mErr sessionId d
    else (st, false)
  let pres := if mres.1.pgConnected then pgSaveSession mres.1 pErr sessionId d
    else (mres.1, false)
  (pres.1, mres.2 || pres.2)

/-- `SessionStorage.getSession`: MongoDB first, PostgreSQL when MongoDB
returned nothing, then `_formatSessionData`. -/
def coordGetSession (st : StoreState) (sessionId : String) :
    Option SessionView :=
  let mres := if st.mongoConnected then mongoGetSession st sessionId else none
  let res := match mres with
    | some v => some v
    | none => if st.pgConnected then pgGetSession st sessionId else none
  res.map formatSessionData

/-- `SessionStorage.updateSession` (the `updatedAt` stamp is elided). -/
def coordUpdateSession (st : StoreState) (mErr pErr : Bool)
    (sessionId : String) (u : UpdateData) : StoreState × Bool :=
  let mres := if st.mongoConnected then mongoUpdateSession st mErr sessionId u
    else (st, false)
  let pres := if mres.1.pgConnected then pgUpdateSession mres.1 pErr sessionId u
    else (mres.1, false)
  (pres.1, mres.2 || pres.2)

/-- `SessionStorage.completelyDeleteSession`: fan-out delete (MongoDB session
document, MongoDB auth blobs, PostgreSQL row); success when any delete
succeeded. -/
def coordCompletelyDeleteSession (st : StoreState) (sessionId : String) :
    StoreState × Bool :=
  let m1 := if st.mongoConnected then
      let a := mongoDeleteSession st sessionId
      let b := mongoDeleteAuthState a.1 sessionId
      (b.1, a.2 || b.2)
    else (st, false)
  let p1 := if m1.1.pgConnected then pgCompletelyDeleteSession m1.1 sessionId
    else (m1.1, false)
  (p1.1, m1.2 || p1.2)

/-- `SessionStorage.getAllSessions`: PostgreSQL when connected, else MongoDB,
then `_formatSessionData` on each record. -/
def coordGetAllSessions (st : StoreState) : List SessionView :=
  let raw := if st.pgConnected then pgGetAllSessions st
    else if st.mongoConnected then mongoGetAllSessions st
    else []
  raw.map formatSessionData

/-! ## Session manager (`SessionManager`, src/whatsapp/sessions/manager.js) -/

/-- In-process manager state: the keyed registries, the three flag sets and
the storage state it writes through (`maxSessions` is the configured session
ceiling, 300 in the source). -/
structure Manager where
  activeSockets : List (String × Socket)
  sessionState : List (String × SessState)
  initializing : List String
  volDisc : List String
  handoffComplete : List String
  maxSessions : Nat
  store : StoreState
  deriving DecidableEq

/-- Externally visible effects of a handler run: callback invocations, timer
arms and provider calls, in program order. -/
inductive Effect where
  | onConnected
  | onError
  | scheduleHandoff (delayMs : Nat)
  | scheduleReconnect (delayMs : Nat)
  | createConn (phone : Option String) (allowPairing : Bool)
  | attachHandler
  deriving DecidableEq

/-- The liveness test the manager applies to an existing handle:
`sock.user && sock.readyState === sock.ws?.OPEN`. -/
def isLive (s : Socket) : Bool :=
  s.user.isSome && s.readyOpen

/-- `SessionManager._cleanupSocketOnly`: transport-only teardown — flush a
buffering event stream, detach listeners, close the websocket with code 1000
when it is open, clear `user` and the stored callbacks.  Touches neither the
database nor the auth state; returns `true` (the internal catch that returns
`false` is unreachable in this model). -/
def cleanupSocketOnly (sock : Socket) : Socket × Bool :=
  ({ sock with
      buffering := false
      listeners := false
      closedWith := if sock.wsReadyState == 1 then some 1000 else sock.closedWith
      user := none
      connectionCallbacks := none }, true)

/-- Modelled from the spec: `ConnectionManager.cleanupAuthState(sessionId)`
lives in `src/whatsapp/core/connection.js`, which is not among the provided
sources.  Per section 6 it returns per-backend booleans and per sections 3
and 4.1.1 it purges the session's credential blobs; the MongoDB side is the
provided `MongoDBStorage.deleteAuthState`, and the file backend holds no
state in this model (its result is `false`). -/
def cleanupAuthState (st : StoreState) (sessionId : String) :
    StoreState × Bool × Bool :=
  let m := mongoDeleteAuthState st sessionId
  (m.1, m.2, false)

/-- `SessionManager.performCompleteUserCleanup`: best-effort full teardown of
socket, database records and auth state; per-resource results. -/
def performCompleteUserCleanupM (m : Manager) (sessionId : String) :
    Manager × Bool × Bool × Bool :=
  let sockRes := (mapGet m.activeSockets sessionId).isSome
  let m1 : Manager :=
    { m with
        activeSockets := mapErase m.activeSockets sessionId
        sessionState := mapErase m.sessionState sessionId
        initializing := setErase m.initializing sessionId
        volDisc := setInsert m.volDisc sessionId
        handoffComplete := setErase m.handoffComplete sessionId }
  let db := coordCompletelyDeleteSession m1.store sessionId
  let auth := cleanupAuthState db.1 sessionId
  ({ m1 with store := auth.1 }, sockRes, db.2, auth.2.1 || auth.2.2)

/-- The `updates` object every close path passes to mark the record
disconnected. -/
def updDisconnected : UpdateData :=
  { updNothing with isConnected := some false
                    connectionStatus := some "disconnected" }

/-- The `updates` object of the 515 branch. -/
def updReconnecting : UpdateData :=
  { updNothing with isConnected := some false
                    connectionStatus := some "reconnecting"
                    detected := some false }

/-- The `connection === 'close'` branch of the handler installed by
`SessionManager._setupConnectionHandler`, as a function of the manager state,
the closed handle, the captured callbacks and the disconnect status code.
Returns the new manager state, the handle after any teardown, and the effect
trace. -/
def handleClose (m : Manager) (sessionId : String) (sock : Socket)
    (cb : Callbacks) (statusCode : Option Nat) :
    Manager × Socket × List Effect :=
  if m.handoffComplete.contains sessionId then (m, sock, [])
  else
    let errEff : List Effect := if cb.hasOnError then [.onError] else []
    if statusCode == some 401 then
      let st1 := (coordUpdateSession m.store false false sessionId
        updDisconnected).1
      let st2 := (cleanupAuthState st1 sessionId).1
      let sock1 := (cleanupSocketOnly sock).1
      ({ m with store := st2
                activeSockets := mapErase m.activeSockets sessionId
                sessionState := mapErase m.sessionState sessionId },
       sock1, errEff)
    else if statusCode == some 515 then
      let st1 := (coordUpdateSession m.store false false sessionId
        updReconnecting).1
      ({ m with store := st1 }, sock,
       errEff ++ [.scheduleReconnect 3000])
    else if statusCode == some 428 then
      let st1 := (coordUpdateSession m.store false false sessionId
        updDisconnected).1
      let st2 := (cleanupAuthState st1 sessionId).1
      let sock1 := (cleanupSocketOnly sock).1
      ({ m with store := st2
                activeSockets := mapErase m.activeSockets sessionId
                sessionState := mapErase m.sessionState sessionId },
       sock1, errEff)
    else
      let st1 := (coordUpdateSession m.store false false sessionId
        updDisconnected).1
      let sock1 := (cleanupSocketOnly sock).1
      ({ m with store := st1
                activeSockets := mapErase m.activeSockets sessionId
                sessionState := mapErase m.sessionState sessionId },
       sock1, errEff)

/-- Mark the persisted record disconnected (the repeated
`storage.updateSession(..., {isConnected:false, connectionStatus:
'disconnected'})` of the 515 timer body). -/
def markDisc (m : Manager) (sessionId : String) : Manager :=
  { m with store := (coordUpdateSession m.store false false sessionId
      updDisconnected).1 }

/-- The body of the 3-second reconnect timer armed by the 515 branch: read
the record back, abort (marking disconnected) when the phone number is
missing, else recreate a connection with `allowPairing = false` reusing the
persisted phone number; register it and re-attach the handler on success,
mark disconnected on failure.  `provider` stands for
`connectionManager.createConnection(sessionId, phone, callbacks, allow)`. -/
def reconnect515 (m : Manager) (sessionId : String) (cb : Callbacks)
    (provider : Option String → Bool → Option Socket) :
    Manager × List Effect :=
  match coordGetSession m.store sessionId with
  | none => (markDisc m sessionId, [])
  | some v =>
      if !(jsTruthy v.phoneNumber) then (markDisc m sessionId, [])
      else
        match provider v.phoneNumber false with
        | some ns =>
            let reg := { ns with connectionCallbacks := some cb }
            ({ m with activeSockets := mapSet m.activeSockets sessionId reg },
             [.createConn v.phoneNumber false, .attachHandler])
        | none =>
            (markDisc m sessionId, [.createConn v.phoneNumber false])

/-- Steps of the handoff protocol, in execution order, for stating ordering
properties. -/
inductive HStep where
  | markHandoff
  | cleanupSock
  | removeActive
  | removeState
  | unmarkHandoff
  deriving DecidableEq

/-- `SessionManager._handoffToMainServer`: abort silently when the handle is
no longer live; otherwise add the sessionId to the handed-off set before any
teardown, perform transport-only teardown, and drop the session from both
in-process registries.  The database is not touched.  `fault` models an
exception raised mid-protocol (after the marker is set); the catch removes
the marker to permit a later retry and nothing else runs. -/
def handoffToMainServer (m : Manager) (sessionId : String) (sock : Socket)
    (fault : Bool) : Manager × List HStep :=
  if !(isLive sock) then (m, [])
  else
    let m1 := { m with handoffComplete := setInsert m.handoffComplete sessionId }
    if fault then
      ({ m1 with handoffComplete := setErase m1.handoffComplete sessionId },
       [.markHandoff, .unmarkHandoff])
    else
      ({ m1 with activeSockets := mapErase m1.activeSockets sessionId
                 sessionState := mapErase m1.sessionState sessionId },
       [.markHandoff, .cleanupSock, .removeActive, .removeState])

/-- Character-list prefix test (the semantics of `String.startsWith`). -/
def strStartsWith : List Char → List Char → Bool
  | _, [] => true
  | [], _ :: _ => false
  | c :: t, p :: pt => c == p && strStartsWith t pt

/-- `createSession`'s sessionId derivation from the userId argument:
`userIdStr.startsWith("session_") ? userIdStr : "session_" + userIdStr`. -/
def sessionIdOf (userIdStr : String) : String :=
  if strStartsWith userIdStr.data "session_".data then userIdStr
  else "session_" ++ userIdStr

/-- The per-call inputs of `createSession`, with the two provider round-trips
it performs given as oracle values: `authAvail` is
`checkAuthAvailability(sessionId).preferred !== 'none'` and `provider` the
handle returned by `connectionManager.createConnection` (absent = `null`,
which makes the call throw). -/
structure CParams where
  userIdStr : String
  phoneNumber : Option String
  cb : Callbacks
  isReconnect : Bool
  source : String
  allowPairing : Bool
  authAvail : Bool
  provider : Option Socket
  deriving DecidableEq

/-- Program counter of one `createSession` call, cut at its `await`
suspension points: `entry` runs the guards, `deadCleanup` is suspended in the
`_cleanupSocketOnly` of a dead existing handle, `staleCheck` in
`checkAuthAvailability`, `staleCleanup` in `performCompleteUserCleanup` plus
the settling delay, `connecting` in `createConnection`, `registered` in
`storage.saveSession` after the handle was stored, and `done` holds the
`finally`-cleaned outcome (`some r` = returned `r`, `none` = threw). -/
inductive PC where
  | entry
  | deadCleanup (dead : Socket)
  | staleCheck
  | staleCleanup
  | connecting
  | registered (sock : Socket)
  | done (ret : Option (Option Socket))
  deriving DecidableEq

/-- The initial `SessionRecord` persisted by `createSession`
(`detected: false`, `connectionStatus: 'connecting'`). -/
def initialSaveData (p : CParams) : SessionData :=
  { userId := some p.userIdStr
    telegramId := some p.userIdStr
    phoneNumber := p.phoneNumber
    isConnected := some false
    connectionStatus := some "connecting"
    reconnectAttempts := some 0
    source := some p.source
    detected := .jbool false }

/-- The session-limit check followed by adding the sessionId to the
initializing set (manager.js lines 151-155); on capacity excess the throw
still runs the `finally`, which removes the sessionId. -/
def lockAndGo (m : Manager) (p : CParams) (sessionId : String) :
    Manager × PC :=
  if m.activeSockets.length ≥ m.maxSessions then
    ({ m with initializing := setErase m.initializing sessionId }, .done none)
  else
    ({ m with initializing := setInsert m.initializing sessionId },
     if !p.isReconnect && p.allowPairing then .staleCheck else .connecting)

/-- One atomic segment of a `createSession` call (between `await`
suspension points).  Every exit path runs the `finally`, which removes the
sessionId from the initializing set — including the early returns and the
thrown errors. -/
def stepProc (m : Manager) (p : CParams) (pc : PC) : Manager × PC :=
  let sid := sessionIdOf p.userIdStr
  match pc with
  | .entry =>
      if m.initializing.contains sid then
        ({ m with initializing := setErase m.initializing sid },
         .done (some (mapGet m.activeSockets sid)))
      else if m.handoffComplete.contains sid then
        ({ m with initializing := setErase m.initializing sid },
         .done (some none))
      else
        match mapGet m.activeSockets sid with
        | some ex =>
            if !p.isReconnect then
              if isLive ex then
                ({ m with initializing := setErase m.initializing sid },
                 .done (some (some ex)))
              else (m, .deadCleanup ex)
            else lockAndGo m p sid
        | none => lockAndGo m p sid
  | .deadCleanup _ =>
      let m1 := { m with activeSockets := mapErase m.activeSockets sid
                         sessionState := mapErase m.sessionState sid }
      lockAndGo m1 p sid
  | .staleCheck =>
      (m, if p.authAvail then .staleCleanup else .connecting)
  | .staleCleanup =>
      ((performCompleteUserCleanupM m sid).1, .connecting)
  | .connecting =>
      match p.provider with
      | none =>
          ({ m with initializing := setErase m.initializing sid }, .done none)
      | some s =>
          let reg := { s with connectionCallbacks := some p.cb }
          ({ m with
              activeSockets := mapSet m.activeSockets sid reg
              sessionState := mapSet m.sessionState sid
                { userId := p.userIdStr, phoneNumber := p.phoneNumber
                  source := p.source, isConnected := false
                  connectionStatus := "connecting", callbacks := p.cb } },
           .registered reg)
  | .registered s =>
      let st1 := (coordSaveSession m.store false false sid
        (initialSaveData p)).1
      ({ m with store := st1
                initializing := setErase m.initializing sid },
       .done (some (some s)))
  | .done r => (m, .done r)

/-- A pool of interleaved `createSession` calls over one shared manager. -/
structure Config where
  mgr : Manager
  procs : List (CParams × PC)
  deriving DecidableEq

/-- Run the next atomic segment of call `i` (no-op on an out-of-range
index). -/
def stepAt (c : Config) (i : Nat) : Config :=
  match c.procs[i]? with
  | none => c
  | some q =>
      let r := stepProc c.mgr q.1 q.2
      { mgr := r.1, procs := c.procs.set i (q.1, r.2) }

/-- Run a whole schedule of interleaved segments. -/
def run (c : Config) (sched : List Nat) : Config :=
  sched.foldl stepAt c

/-- Drive a single call to completion without interleaving. -/
def runProc : Nat → Manager → CParams → PC → Manager × PC
  | 0, m, _, pc => (m, pc)
  | fuel + 1, m, p, pc =>
      match pc with
      | .done r => (m, .done r)
      | _ =>
          let r := stepProc m p pc
          runProc fuel r.1 p r.2

/-- A complete, uninterleaved `createSession` call (7 segments suffice to
reach `done` from `entry`). -/
def createSessionRun (m : Manager) (p : CParams) : Manager × PC :=
  runProc 7 m p .entry

/-- Whether a call has finished (returned or thrown). -/
def isDone : PC → Bool
  | .done _ => true
  | _ => false

/-- Whether a call is past the point where it added its sessionId to the
initializing set and before the `finally` that removes it. -/
def inFlight : PC → Bool
  | .staleCheck => true
  | .staleCleanup => true
  | .connecting => true
  | .registered _ => true
  | _ => false

/-- Configuration invariant tying the initializing set to the calls that can
still be holding it: every member of the set is the sessionId of some
in-flight call. -/
def InitInv (c : Config) : Prop :=
  ∀ sid ∈ c.mgr.initializing, ∃ q ∈ c.procs,
    sessionIdOf q.1.userIdStr = sid ∧ inFlight q.2 = true

/-- All calls of the pool have finished. -/
def allDone (c : Config) : Bool :=
  c.procs.all (fun q => isDone q.2)

/-! ## Concrete fixtures for witnesses and counterexamples -/

/-- A paired, open handle. -/
def liveSock : Socket :=
  { user := some "15550001:1@s.whatsapp.net", readyOpen := true
    buffering := false, listeners := true, wsReadyState := 1
    closedWith := none, connectionCallbacks := none }

/-- A dead handle (never paired, transport not open). -/
def deadSock : Socket :=
  { user := none, readyOpen := false, buffering := false, listeners := true
    wsReadyState := 3, closedWith := none, connectionCallbacks := none }

/-- A freshly created, not yet paired handle as returned by the provider. -/
def newSock : Socket :=
  { user := none, readyOpen := true, buffering := false, listeners := true
    wsReadyState := 1, closedWith := none, connectionCallbacks := none }

/-- Callbacks with both handlers installed. -/
def cbBoth : Callbacks := { hasOnConnected := true, hasOnError := true }

/-- A persisted record for `session_7` as written at connection-open time. -/
def doc7 : MongoDoc :=
  { sessionId := "session_7", telegramId := some "7"
    phoneNumber := some "15550001", isConnected := true
    connectionStatus := "connected", reconnectAttempts := 0
    source := "web", detected := .jbool false }

/-- One credential blob for `session_7`. -/
def blob7 : AuthDoc :=
  { sessionId := "session_7", filename := "creds.json", datajson := "OPAQUE" }

/-- A store with only MongoDB reachable, holding `session_7`. -/
def store7 : StoreState :=
  { mongoConnected := true, pgConnected := false
    mongoSessions := [doc7], pgUsers := [], authBlobs := [blob7] }

/-- A reachable but empty store. -/
def emptyStore : StoreState :=
  { mongoConnected := true, pgConnected := false
    mongoSessions := [], pgUsers := [], authBlobs := [] }

/-- In-process state for `session_7`. -/
def st7 : SessState :=
  { userId := "7", phoneNumber := some "15550001", source := "web"
    isConnected := true, connectionStatus := "connected", callbacks := cbBoth }

/-- A manager holding a live `session_7`. -/
def mgr7 : Manager :=
  { activeSockets := [("session_7", liveSock)]
    sessionState := [("session_7", st7)]
    initializing := [], volDisc := [], handoffComplete := []
    maxSessions := 300, store := store7 }

/-- A manager that has handed `session_1` off. -/
def mgrHandedOff : Manager :=
  { activeSockets := [], sessionState := [], initializing := []
    volDisc := [], handoffComplete := ["session_1"]
    maxSessions := 300, store := emptyStore }

/-- A manager with no sessions. -/
def emptyMgr : Manager :=
  { activeSockets := [], sessionState := [], initializing := []
    volDisc := [], handoffComplete := [], maxSessions := 300
    store := emptyStore }

/-- A manager holding a dead handle for `session_7`. -/
def mgrDead : Manager :=
  { mgr7 with activeSockets := [("session_7", deadSock)], store := emptyStore }

/-- A `createSession("7", ...)` call whose provider call fails. -/
def pFail : CParams :=
  { userIdStr := "7", phoneNumber := some "15550001", cb := cbBoth
    isReconnect := false, source := "web", allowPairing := false
    authAvail := false, provider := none }

/-- A `createSession("7", ...)` call whose provider call succeeds. -/
def pOk : CParams := { pFail with provider := some newSock }

/-- Two interleaved calls racing over the dead `session_7` handle. -/
def c4start : Config :=
  { mgr := mgrDead, procs := [(pFail, .entry), (pOk, .entry)] }

/-- Two interleaved calls on an empty manager. -/
def c3start : Config :=
  { mgr := emptyMgr, procs := [(pOk, .entry), (pOk, .entry)] }

/-- A provider oracle that always returns a fresh handle. -/
def provAlways : Option String → Bool → Option Socket :=
  fun _ _ => some newSock

/-- A provider oracle that always fails. -/
def provNever : Option String → Bool → Option Socket :=
  fun _ _ => none

/-! ## Helper lemmas on the keyed-list operations -/

section ListLemmas

variable {A : Type}

lemma mapGet_mapErase_self (l : List (String × A)) (k : String) :
    mapGet (mapErase l k) k = none := by
  induction l with
  | nil => rfl
  | cons p t ih =>
      simp only [mapErase, List.filter_cons] at *
      by_cases h : p.1 = k
      · simp [h, ih]
      · simp [h, mapGet, ih]

lemma mem_setErase_self (l : List String) (s : String) : s ∉ setErase l s := by
  simp [setErase, List.mem_filter]

lemma mem_setErase_ne (l : List String) {s t : String} (h : s ≠ t) :
    s ∈ setErase l t ↔ s ∈ l := by
  simp [setErase, List.mem_filter, h]

lemma mem_setInsert_self (l : List String) (s : String) : s ∈ setInsert l s := by
  unfold setInsert
  split
  · next h => simpa using h
  · exact List.mem_cons_self s l

lemma mem_setInsert_ne (l : List String) {s t : String} (h : s ≠ t) :
    s ∈ setInsert l t ↔ s ∈ l := by
  unfold setInsert
  split
  · exact Iff.rfl
  · simp [h]

lemma keysNodup_mapErase (l : List (String × A)) (k : String)
    (h : keysNodup l = true) : keysNodup (mapErase l k) = true := by
  induction l with
  | nil => rfl
  | cons p t ih =>
      simp only [keysNodup, Bool.and_eq_true] at h
      have hhd : t.any (fun q => q.1 == p.1) = false := by
        simpa using h.1
      simp only [mapErase, List.filter_cons]
      split
      · simp only [keysNodup, Bool.and_eq_true]
        refine ⟨?_, ih h.2⟩
        have hany : (mapErase t k).any (fun q => q.1 == p.1) = false := by
          rcases hc : (mapErase t k).any (fun q => q.1 == p.1) with _ | _
          · rfl
          · exfalso
            rcases List.any_eq_true.mp hc with ⟨q, hq, hbeq⟩
            have hqt : q ∈ t := (List.mem_filter.mp hq).1
            have hcon : t.any (fun r => r.1 == p.1) = true :=
              List.any_eq_true.mpr ⟨q, hqt, hbeq⟩
            rw [hhd] at hcon
            exact Bool.false_ne_true hcon
        simp [mapErase] at hany
        simp [mapErase]
        exact hany
      · exact ih h.2

lemma keysNodup_mapSet (l : List (String × A)) (k : String) (v : A)
    (h : keysNodup l = true) : keysNodup (mapSet l k v) = true := by
  induction l with
  | nil => simp [mapSet, keysNodup]
  | cons p t ih =>
      simp only [keysNodup, Bool.and_eq_true, Bool.not_eq_true] at h
      simp only [mapSet]
      split
      · next hk =>
          have hk0 : p.1 = k := by simpa using hk
          simp only [keysNodup, Bool.and_eq_true, Bool.not_eq_true]
          exact ⟨by rw [← hk0]; exact h.1, h.2⟩
      · next hk =>
          have hk0 : ¬(p.1 = k) := by simpa using hk
          have hhd : t.any (fun q => q.1 == p.1) = false := by
            simpa using h.1
          simp only [keysNodup, Bool.and_eq_true]
          refine ⟨?_, ih h.2⟩
          have hany : (mapSet t k v).any (fun q => q.1 == p.1) = false := by
            rcases hc : (mapSet t k v).any (fun q => q.1 == p.1) with _ | _
            · rfl
            · exfalso
              rcases List.any_eq_true.mp hc with ⟨q, hq, hbeq⟩
              have hq1 : q.1 = p.1 := by simpa using hbeq
              have hqt : q.1 = k ∨ q ∈ t := by
                clear hc hbeq ih h hhd hq1
                induction t with
                | nil =>
                    simp only [mapSet, List.mem_singleton] at hq
                    left; rw [hq]
                | cons r t2 ih2 =>
                    simp only [mapSet] at hq
                    split at hq
                    · rcases List.mem_cons.mp hq with h1 | h1
                      · left; rw [h1]
                      · right; exact List.mem_cons_of_mem r h1
                    · rcases List.mem_cons.mp hq with h1 | h1
                      · right; rw [h1]; exact List.mem_cons_self r t2
                      · rcases ih2 h1 with h2 | h2
                        · left; exact h2
                        · right; exact List.mem_cons_of_mem r h2
              rcases hqt with h1 | h1
              · exact hk0 (hq1 ▸ h1)
              · have hcon : t.any (fun r => r.1 == p.1) = true :=
                  List.any_eq_true.mpr ⟨q, h1, hbeq⟩
                rw [hhd] at hcon
                exact Bool.false_ne_true hcon
          simp [hany]

lemma countKey_le_one (l : List (String × A)) (k : String)
    (h : keysNodup l = true) : countKey l k ≤ 1 := by
  induction l with
  | nil => simp [countKey]
  | cons p t ih =>
      simp only [keysNodup, Bool.and_eq_true, Bool.not_eq_true] at h
      simp only [countKey, List.filter_cons]
      split
      · next hk =>
          have hk0 : p.1 = k := by simpa using hk
          have hhd : t.any (fun q => q.1 == p.1) = false := by
            simpa using h.1
          have hzero : (t.filter (fun q => q.1 == k)).length = 0 := by
            rw [List.length_eq_zero]
            rw [List.filter_eq_nil_iff]
            intro q hq hbeq
            have hcon : t.any (fun r => r.1 == p.1) = true := by
              refine List.any_eq_true.mpr ⟨q, hq, ?_⟩
              have hqk : q.1 = k := by simpa using hbeq
              simp [hqk, hk0]
            rw [hhd] at hcon
            exact absurd hcon (by simp)
          simp only [List.length_cons, hzero]
          omega
      · exact ih h.2

lemma filter_not_filter (l : List A) (p : A → Bool) :
    (l.filter (fun x => !(p x))).filter p = [] := by
  induction l with
  | nil => rfl
  | cons a t ih =>
      simp only [List.filter_cons]
      by_cases h : p a = true
      · simp [h, ih]
      · have h2 : p a = false := by simpa using h
        simp [h2, List.filter_cons, ih]

end ListLemmas

/-! ## Helper lemmas on the adapter operations -/

lemma applyMongoUpd_sessionId (d : MongoDoc) (u : UpdateData) :
    (applyMongoUpd d u).sessionId = d.sessionId := rfl

lemma findDoc_updFirst (l : List MongoDoc) (sid : String) (u : UpdateData) :
    findDoc (mongoUpdFirst l sid u) sid =
      (findDoc l sid).map (fun d => applyMongoUpd d u) := by
  induction l with
  | nil => rfl
  | cons d t ih =>
      simp only [mongoUpdFirst, findDoc]
      by_cases h : d.sessionId = sid
      · simp [findDoc, applyMongoUpd_sessionId, h]
      · simp [findDoc, h, ih]

lemma mem_updFirst_of_findDoc (l : List MongoDoc) (sid : String)
    (u : UpdateData) (d : MongoDoc) (h : findDoc l sid = some d) :
    applyMongoUpd d u ∈ mongoUpdFirst l sid u := by
  induction l with
  | nil => simp [findDoc] at h
  | cons d0 t ih =>
      simp only [findDoc] at h
      simp only [mongoUpdFirst]
      by_cases h0 : d0.sessionId = sid
      · simp only [h0, beq_self_eq_true, if_pos] at h ⊢
        simp only [Option.some.injEq] at h
        rw [h]
        exact List.mem_cons_self _ _
      · have hb : (d0.sessionId == sid) = false := by simp [h0]
        simp only [hb] at h ⊢
        simp only [Bool.false_eq_true, if_false] at h ⊢
        exact List.mem_cons_of_mem d0 (ih h)

lemma findBlob_upsert_self (l : List AuthDoc) (sid k dat : String) :
    findBlob (upsertBlob l sid k dat) sid k =
      some { sessionId := sid, filename := k, datajson := dat } := by
  induction l with
  | nil => simp [upsertBlob, findBlob]
  | cons b t ih =>
      simp only [upsertBlob]
      by_cases h : b.sessionId = sid ∧ b.filename = k
      · simp [h.1, h.2, findBlob]
      · have hb : (b.sessionId == sid && b.filename == k) = false := by
          rcases Decidable.not_and_iff_or_not.mp h with h1 | h1 <;> simp [h1]
        simp only [hb, Bool.false_eq_true, if_false, findBlob]
        exact ih

lemma findBlob_upsert_ne (l : List AuthDoc) (sid k dat sid2 k2 : String)
    (h : ¬(sid2 = sid ∧ k2 = k)) :
    findBlob (upsertBlob l sid k dat) sid2 k2 = findBlob l sid2 k2 := by
  have hb2 : ((sid == sid2) && (k == k2)) = false := by
    rcases Decidable.not_and_iff_or_not.mp h with h1 | h1
    · have h2 : ¬(sid = sid2) := by
        intro e
        exact h1 e.symm
      simp [h2]
    · have h2 : ¬(k = k2) := by
        intro e
        exact h1 e.symm
      simp [h2]
  induction l with
  | nil => simp [upsertBlob, findBlob, hb2]
  | cons b t ih =>
      simp only [upsertBlob]
      by_cases hm : b.sessionId = sid ∧ b.filename = k
      · have hb3 : (b.sessionId == sid2 && b.filename == k2) = false := by
          rw [hm.1, hm.2]
          exact hb2
        simp only [hm.1, hm.2, beq_self_eq_true, Bool.and_self, if_true,
          findBlob, hb2, hb3, Bool.false_eq_true, if_false]
      · have hb : (b.sessionId == sid && b.filename == k) = false := by
          rcases Decidable.not_and_iff_or_not.mp hm with h1 | h1 <;> simp [h1]
        simp only [hb, Bool.false_eq_true, if_false, findBlob]
        by_cases hx : (b.sessionId == sid2 && b.filename == k2) = true
        · simp [hx]
        · have hx2 : (b.sessionId == sid2 && b.filename == k2) = false := by
            simpa using hx
          simp [hx2, ih]

/-! ## Invariant lemmas for the interleaved createSession machine -/

lemma lockAndGo_active (m : Manager) (p : CParams) (s : String) :
    (lockAndGo m p s).1.activeSockets = m.activeSockets := by
  unfold lockAndGo
  split <;> rfl

lemma lockAndGo_init_ne (m : Manager) (p : CParams) {s s0 : String}
    (h : s ≠ s0) :
    s ∈ (lockAndGo m p s0).1.initializing ↔ s ∈ m.initializing := by
  unfold lockAndGo
  split
  · exact mem_setErase_ne _ h
  · exact mem_setInsert_ne _ h

lemma lockAndGo_init_self (m : Manager) (p : CParams) (s0 : String) :
    s0 ∉ (lockAndGo m p s0).1.initializing
      ∨ inFlight (lockAndGo m p s0).2 = true := by
  unfold lockAndGo
  split
  · left
    exact mem_setErase_self _ _
  · right
    split <;> rfl

lemma pcuc_init (m : Manager) (s : String) :
    (performCompleteUserCleanupM m s).1.initializing =
      setErase m.initializing s := rfl

lemma pcuc_active (m : Manager) (s : String) :
    (performCompleteUserCleanupM m s).1.activeSockets =
      mapErase m.activeSockets s := rfl

lemma stepProc_keysNodup (m : Manager) (p : CParams) (pc : PC)
    (h : keysNodup m.activeSockets = true) :
    keysNodup (stepProc m p pc).1.activeSockets = true := by
  cases pc with
  | entry =>
      simp only [stepProc]
      split
      · exact h
      split
      · exact h
      split
      · split
        · split
          · exact h
          · exact h
        · rw [lockAndGo_active]
          exact h
      · rw [lockAndGo_active]
        exact h
  | deadCleanup d =>
      simp only [stepProc]
      rw [lockAndGo_active]
      exact keysNodup_mapErase _ _ h
  | staleCheck => exact h
  | staleCleanup =>
      simp only [stepProc]
      rw [pcuc_active]
      exact keysNodup_mapErase _ _ h
  | connecting =>
      simp only [stepProc]
      split
      · exact h
      · exact keysNodup_mapSet _ _ _ h
  | registered s => exact h
  | done r => exact h

lemma stepProc_init_ne (m : Manager) (p : CParams) (pc : PC) {s : String}
    (h : s ≠ sessionIdOf p.userIdStr) :
    s ∈ (stepProc m p pc).1.initializing ↔ s ∈ m.initializing := by
  cases pc with
  | entry =>
      simp only [stepProc]
      split
      · exact mem_setErase_ne _ h
      split
      · exact mem_setErase_ne _ h
      split
      · split
        · split
          · exact mem_setErase_ne _ h
          · exact Iff.rfl
        · exact lockAndGo_init_ne m p h
      · exact lockAndGo_init_ne m p h
  | deadCleanup d =>
      simp only [stepProc]
      exact lockAndGo_init_ne _ p h
  | staleCheck => exact Iff.rfl
  | staleCleanup =>
      simp only [stepProc]
      rw [pcuc_init]
      exact mem_setErase_ne _ h
  | connecting =>
      simp only [stepProc]
      split
      · exact mem_setErase_ne _ h
      · exact Iff.rfl
  | registered s =>
      simp only [stepProc]
      exact mem_setErase_ne _ h
  | done r => exact Iff.rfl

lemma stepProc_init_self (m : Manager) (p : CParams) (pc : PC) :
    sessionIdOf p.userIdStr ∉ (stepProc m p pc).1.initializing
    ∨ inFlight (stepProc m p pc).2 = true
    ∨ ((stepProc m p pc).1.initializing = m.initializing
        ∧ inFlight pc = false) := by
  cases pc with
  | entry =>
      simp only [stepProc]
      split
      · left
        exact mem_setErase_self _ _
      split
      · left
        exact mem_setErase_self _ _
      split
      · split
        · split
          · left
            exact mem_setErase_self _ _
          · right
            right
            exact ⟨rfl, rfl⟩
        · rcases lockAndGo_init_self m p (sessionIdOf p.userIdStr) with h1 | h1
          · left
            exact h1
          · right
            left
            exact h1
      · rcases lockAndGo_init_self m p (sessionIdOf p.userIdStr) with h1 | h1
        · left
          exact h1
        · right
          left
          exact h1
  | deadCleanup d =>
      simp only [stepProc]
      rcases lockAndGo_init_self
          { m with activeSockets := mapErase m.activeSockets (sessionIdOf p.userIdStr)
                   sessionState := mapErase m.sessionState (sessionIdOf p.userIdStr) }
          p (sessionIdOf p.userIdStr) with h1 | h1
      · left
        exact h1
      · right
        left
        exact h1
  | staleCheck =>
      right
      left
      simp only [stepProc]
      split <;> rfl
  | staleCleanup =>
      right
      left
      rfl
  | connecting =>
      simp only [stepProc]
      split
      · left
        exact mem_setErase_self _ _
      · right
        left
        rfl
  | registered s =>
      left
      exact mem_setErase_self _ _
  | done r =>
      right
      right
      exact ⟨rfl, rfl⟩

lemma memSetSelf {A : Type} :
    ∀ (l : List A) (i : Nat) (x : A), i < l.length → x ∈ l.set i x := by
  intro l
  induction l with
  | nil =>
      intro i x h
      simp at h
  | cons a t ih =>
      intro i x h
      cases i with
      | zero => exact List.mem_cons_self x t
      | succ n =>
          show x ∈ a :: t.set n x
          exact List.mem_cons_of_mem a (ih n x (by simpa using h))

lemma memOfSet {A : Type} :
    ∀ (l : List A) (i : Nat) (x q : A), q ∈ l →
      l[i]? = some q ∨ q ∈ l.set i x := by
  intro l
  induction l with
  | nil =>
      intro i x q h
      simp at h
  | cons a t ih =>
      intro i x q h
      cases i with
      | zero =>
          rcases List.mem_cons.mp h with h1 | h1
          · left
            simp [h1]
          · right
            show q ∈ x :: t
            exact List.mem_cons_of_mem x h1
      | succ n =>
          rcases List.mem_cons.mp h with h1 | h1
          · right
            show q ∈ a :: t.set n x
            rw [h1]
            exact List.mem_cons_self a _
          · rcases ih n x q h1 with h2 | h2
            · left
              simpa using h2
            · right
              show q ∈ a :: t.set n x
              exact List.mem_cons_of_mem a h2

lemma lengthOfGet {A : Type} (l : List A) (i : Nat) (q : A)
    (h : l[i]? = some q) : i < l.length := by
  by_contra hc
  push_neg at hc
  rw [List.getElem?_eq_none hc] at h
  cases h

lemma inFlight_isDone (pc : PC) (h : inFlight pc = true) : isDone pc = false := by
  cases pc <;> simp_all [inFlight, isDone]

set_option maxHeartbeats 800000 in
lemma stepAt_preserves (c : Config) (i : Nat)
    (hk : keysNodup c.mgr.activeSockets = true) (hi : InitInv c) :
    keysNodup (stepAt c i).mgr.activeSockets = true ∧ InitInv (stepAt c i) := by
  rcases hq : c.procs[i]? with _ | ⟨p, pc⟩
  · simp only [stepAt, hq]
    exact ⟨hk, hi⟩
  rcases hr : stepProc c.mgr p pc with ⟨m2, pc2⟩
  have hgoal : stepAt c i = { mgr := m2, procs := c.procs.set i (p, pc2) } := by
    simp only [stepAt, hq, hr]
  rw [hgoal]
  have hkey := stepProc_keysNodup c.mgr p pc hk
  rw [hr] at hkey
  have hself := stepProc_init_self c.mgr p pc
  rw [hr] at hself
  constructor
  · exact hkey
  · intro sid hs
    by_cases hEq : sid = sessionIdOf p.userIdStr
    · rcases hself with h1 | h1 | h1
      · rw [hEq] at hs
        exact absurd hs h1
      · refine ⟨(p, pc2), ?_, hEq.symm, h1⟩
        exact memSetSelf _ i _ (lengthOfGet _ i _ hq)
      · rw [h1.1] at hs
        obtain ⟨q0, hq0mem, hq0sid, hq0in⟩ := hi _ hs
        rcases memOfSet c.procs i (p, pc2) q0 hq0mem with h2 | h2
        · rw [hq] at h2
          have h3 : q0 = (p, pc) := Option.some.inj h2.symm
          rw [h3, h1.2] at hq0in
          cases hq0in
        · exact ⟨q0, h2, hq0sid, hq0in⟩
    · have hne := stepProc_init_ne c.mgr p pc hEq
      rw [hr] at hne
      have hs0 : sid ∈ c.mgr.initializing := hne.mp hs
      obtain ⟨q0, hq0mem, hq0sid, hq0in⟩ := hi sid hs0
      rcases memOfSet c.procs i (p, pc2) q0 hq0mem with h2 | h2
      · have h3 : q0 = (p, pc) := by
          rw [hq] at h2
          exact Option.some.inj h2.symm
        exact absurd (h3 ▸ hq0sid) (fun e => hEq e.symm)
      · exact ⟨q0, h2, hq0sid, hq0in⟩

lemma run_preserves (sched : List Nat) (c : Config)
    (hk : keysNodup c.mgr.activeSockets = true) (hi : InitInv c) :
    keysNodup (run c sched).mgr.activeSockets = true ∧ InitInv (run c sched) := by
  induction sched generalizing c with
  | nil => exact ⟨hk, hi⟩
  | cons i t ih =>
      have h1 := stepAt_preserves c i hk hi
      have h2 : run c (i :: t) = run (stepAt c i) t := by
        simp [run]
      rw [h2]
      exact ih (stepAt c i) h1.1 h1.2

/-! ## Frame lemmas for the coordinator adapters -/

lemma mongoSaveSession_flags (st : StoreState) (e : Bool) (sid : String)
    (d : SessionData) :
    (mongoSaveSession st e sid d).1.mongoConnected = st.mongoConnected
    ∧ (mongoSaveSession st e sid d).1.pgConnected = st.pgConnected := by
  unfold mongoSaveSession
  split
  · exact ⟨rfl, rfl⟩
  split
  · exact ⟨rfl, rfl⟩
  · exact ⟨rfl, rfl⟩

lemma mongoUpdateSession_flags (st : StoreState) (e : Bool) (sid : String)
    (u : UpdateData) :
    (mongoUpdateSession st e sid u).1.mongoConnected = st.mongoConnected
    ∧ (mongoUpdateSession st e sid u).1.pgConnected = st.pgConnected := by
  unfold mongoUpdateSession
  split
  · exact ⟨rfl, rfl⟩
  split
  · exact ⟨rfl, rfl⟩
  · exact ⟨rfl, rfl⟩

/-! ## Claim theorems -/

/-- Claim C1: once a sessionId is in the handed-off set, a close event
delivered to the superseded handle is a complete no-op — the manager state
(persisted records, credential blobs, all in-process registries) and the
handle are returned unchanged and no callback effect is emitted. -/
theorem c1_handoff_close_noop (m : Manager) (sessionId : String)
    (sock : Socket) (cb : Callbacks) (statusCode : Option Nat)
    (h : m.handoffComplete.contains sessionId = true) :
    handleClose m sessionId sock cb statusCode = (m, sock, []) := by
  unfold handleClose
  rw [h]
  simp

/-- Witness for C1 at a concrete handed-off session and a stray 440 close. -/
theorem c1_witness :
    mgrHandedOff.handoffComplete.contains "session_1" = true
    ∧ handleClose mgrHandedOff "session_1" deadSock cbBoth (some 440)
        = (mgrHandedOff, deadSock, []) :=
  ⟨by decide,
   c1_handoff_close_noop mgrHandedOff "session_1" deadSock cbBoth (some 440)
     (by decide)⟩

/-- Claim C2: with a live handle and no fault, the handoff protocol emits
its steps in the order mark-handed-off first then teardown and registry
removal, leaves the whole persisted store untouched (so a record whose
`detected` was false still has it false), records the sessionId in the
handed-off set and removes the session from both registries; with a dead
handle it aborts with no state change; on a mid-protocol exception only the
handed-off marker is rolled back (permitting a retry) and no retry step is
emitted. -/
theorem c2_handoff_protocol (m : Manager) (sessionId : String)
    (sock : Socket) (fault : Bool) :
    (isLive sock = false → handoffToMainServer m sessionId sock fault = (m, []))
    ∧ (isLive sock = true → fault = false →
        (handoffToMainServer m sessionId sock fault).2 =
          [HStep.markHandoff, HStep.cleanupSock, HStep.removeActive,
           HStep.removeState]
        ∧ (handoffToMainServer m sessionId sock fault).1.store = m.store
        ∧ sessionId ∈ (handoffToMainServer m sessionId sock fault).1.handoffComplete
        ∧ mapGet (handoffToMainServer m sessionId sock fault).1.activeSockets
            sessionId = none
        ∧ mapGet (handoffToMainServer m sessionId sock fault).1.sessionState
            sessionId = none
        ∧ (handoffToMainServer m sessionId sock fault).1.initializing
            = m.initializing
        ∧ (handoffToMainServer m sessionId sock fault).1.volDisc = m.volDisc)
    ∧ (isLive sock = true → fault = true →
        (handoffToMainServer m sessionId sock fault).2 =
          [HStep.markHandoff, HStep.unmarkHandoff]
        ∧ (handoffToMainServer m sessionId sock fault).1.store = m.store
        ∧ sessionId ∉ (handoffToMainServer m sessionId sock fault).1.handoffComplete
        ∧ (handoffToMainServer m sessionId sock fault).1.activeSockets
            = m.activeSockets
        ∧ (handoffToMainServer m sessionId sock fault).1.sessionState
            = m.sessionState) := by
  refine ⟨?_, ?_, ?_⟩
  · intro hdead
    simp [handoffToMainServer, hdead]
  · intro hlive hf
    subst hf
    have he : handoffToMainServer m sessionId sock false =
        ({ m with handoffComplete := setInsert m.handoffComplete sessionId
                  activeSockets := mapErase m.activeSockets sessionId
                  sessionState := mapErase m.sessionState sessionId },
         [HStep.markHandoff, HStep.cleanupSock, HStep.removeActive,
          HStep.removeState]) := by
      simp [handoffToMainServer, hlive]
    rw [he]
    exact ⟨rfl, rfl, mem_setInsert_self _ _, mapGet_mapErase_self _ _,
      mapGet_mapErase_self _ _, rfl, rfl⟩
  · intro hlive hf
    subst hf
    have he : handoffToMainServer m sessionId sock true =
        ({ m with handoffComplete :=
            setErase (setInsert m.handoffComplete sessionId) sessionId },
         [HStep.markHandoff, HStep.unmarkHandoff]) := by
      simp [handoffToMainServer, hlive]
    rw [he]
    exact ⟨rfl, rfl, mem_setErase_self _ _, rfl, rfl⟩

/-- Witness for C2 at a live `session_7` handle, with and without fault. -/
theorem c2_witness :
    ((handoffToMainServer mgr7 "session_7" liveSock false).2 =
        [HStep.markHandoff, HStep.cleanupSock, HStep.removeActive,
         HStep.removeState]
      ∧ (handoffToMainServer mgr7 "session_7" liveSock false).1.store = mgr7.store
      ∧ "session_7" ∈ (handoffToMainServer mgr7 "session_7" liveSock false).1.handoffComplete
      ∧ mapGet (handoffToMainServer mgr7 "session_7" liveSock false).1.activeSockets
          "session_7" = none
      ∧ mapGet (handoffToMainServer mgr7 "session_7" liveSock false).1.sessionState
          "session_7" = none
      ∧ (handoffToMainServer mgr7 "session_7" liveSock false).1.initializing
          = mgr7.initializing
      ∧ (handoffToMainServer mgr7 "session_7" liveSock false).1.volDisc = mgr7.volDisc)
    ∧ ((handoffToMainServer mgr7 "session_7" liveSock true).2 =
        [HStep.markHandoff, HStep.unmarkHandoff]
      ∧ (handoffToMainServer mgr7 "session_7" liveSock true).1.store = mgr7.store
      ∧ "session_7" ∉ (handoffToMainServer mgr7 "session_7" liveSock true).1.handoffComplete
      ∧ (handoffToMainServer mgr7 "session_7" liveSock true).1.activeSockets
          = mgr7.activeSockets
      ∧ (handoffToMainServer mgr7 "session_7" liveSock true).1.sessionState
          = mgr7.sessionState) :=
  ⟨(c2_handoff_protocol mgr7 "session_7" liveSock false).2.1 rfl rfl,
   (c2_handoff_protocol mgr7 "session_7" liveSock true).2.2 rfl rfl⟩

/-- Counterexample to claim C9 as stated: the sanitization is not
collision-safe.  The distinct names `a/b` and `a\b` both sanitize to `a_b`,
and a payload written under `a\b` is returned by a read under `a/b` for the
same sessionId. -/
theorem c9_counterexample :
    sanitizeFileName "a/b" = "a_b"
    ∧ sanitizeFileName "a\\b" = "a_b"
    ∧ ("a/b" : String) ≠ "a\\b"
    ∧ mongoReadAuthData
        (mongoWriteAuthData emptyStore false "session_7" "a\\b" "P2").1
        "session_7" "a/b" = some "P2" := by
  refine ⟨by decide, by decide, by decide, by decide⟩

lemma mongoWriteAuthData_ok (st : StoreState) (sid n d : String)
    (hmc : st.mongoConnected = true) :
    (mongoWriteAuthData st false sid n d).1.authBlobs
        = upsertBlob st.authBlobs sid (sanitizeFileName n) d
    ∧ (mongoWriteAuthData st false sid n d).1.mongoConnected = true := by
  simp [mongoWriteAuthData, hmc]

lemma mongoReadAuthData_eq (st : StoreState) (sid n : String)
    (hmc : st.mongoConnected = true) :
    mongoReadAuthData st sid n =
      (findBlob st.authBlobs sid (sanitizeFileName n)).map
        (fun b => b.datajson) := by
  simp [mongoReadAuthData, hmc]

/-- Claim C9 (amended): the sanitization maps the delimiter sequences to
substitutes but is not injective, so key separation holds only between names
whose sanitized keys differ: a write under a name followed by a read under
the same name returns that payload, and a subsequent write under another
name leaves it intact exactly when the two sanitized keys differ. -/
theorem c9_auth_read_write (st : StoreState) (sessionId n1 n2 d1 d2 : String)
    (hmc : st.mongoConnected = true) :
    mongoReadAuthData (mongoWriteAuthData st false sessionId n1 d1).1
        sessionId n1 = some d1
    ∧ (sanitizeFileName n2 ≠ sanitizeFileName n1 →
        mongoReadAuthData
          (mongoWriteAuthData (mongoWriteAuthData st false sessionId n1 d1).1
            false sessionId n2 d2).1 sessionId n1 = some d1) := by
  obtain ⟨hb1, hc1⟩ := mongoWriteAuthData_ok st sessionId n1 d1 hmc
  constructor
  · rw [mongoReadAuthData_eq _ _ _ hc1, hb1, findBlob_upsert_self]
    rfl
  · intro hne
    obtain ⟨hb2, hc2⟩ := mongoWriteAuthData_ok
      (mongoWriteAuthData st false sessionId n1 d1).1 sessionId n2 d2 hc1
    rw [mongoReadAuthData_eq _ _ _ hc2, hb2, hb1]
    rw [findBlob_upsert_ne _ _ _ _ _ _ (fun hc => hne hc.2.symm)]
    rw [findBlob_upsert_self]
    rfl

/-- Witness for C9 (amended) at concrete names with distinct sanitized
keys. -/
theorem c9_witness :
    mongoReadAuthData
        (mongoWriteAuthData emptyStore false "session_7" "app-state" "P1").1
        "session_7" "app-state" = some "P1"
    ∧ mongoReadAuthData
        (mongoWriteAuthData
          (mongoWriteAuthData emptyStore false "session_7" "app-state" "P1").1
          false "session_7" "creds.json" "P2").1
        "session_7" "app-state" = some "P1" :=
  ⟨(c9_auth_read_write emptyStore "session_7" "app-state" "creds.json"
      "P1" "P2" rfl).1,
   (c9_auth_read_write emptyStore "session_7" "app-state" "creds.json"
      "P1" "P2" rfl).2 (by decide)⟩

/-- Claim C10: the `detected` flag read back via the adapters and the
coordinator is true unless the stored value is exactly the boolean `false`
(absent or any other value reads as true), and the MongoDB `saveSession`
document carries `detected = true` whenever the input omits the field — only
an explicit `false` persists an undetected record. -/
theorem c10_detected_coercion :
    (∀ d : MongoDoc, (mongoViewOfDoc d).detected = true
        ↔ d.detected ≠ JValue.jbool false)
    ∧ (∀ v : SessionView, (formatSessionData v).detected = v.detected)
    ∧ (∀ sessionId : String, ∀ dat : SessionData,
        (mongoDocOf sessionId dat).detected = .jbool (neqFalse dat.detected))
    ∧ (∀ sessionId : String, ∀ dat : SessionData, dat.detected = .jundef →
        (mongoDocOf sessionId dat).detected = .jbool true)
    ∧ (∀ r : PgRow, (pgViewOfRow r).detected = true ↔ r.detected ≠ some false)
    ∧ (∀ st : StoreState, ∀ sessionId : String, ∀ d : MongoDoc,
        st.mongoConnected = true →
        findDoc st.mongoSessions sessionId = some d →
        coordGetSession st sessionId =
          some (formatSessionData (mongoViewOfDoc d))
        ∧ (formatSessionData (mongoViewOfDoc d)).detected
            = neqFalse d.detected) := by
  refine ⟨?_, ?_, ?_, ?_, ?_, ?_⟩
  · intro d
    rcases hd : d.detected with _ | _ | b | s | n
    case jbool => cases b <;> simp [mongoViewOfDoc, neqFalse, hd]
    all_goals simp [mongoViewOfDoc, neqFalse, hd]
  · intro v
    cases hv : v.detected <;> simp [formatSessionData, hv]
  · intro sessionId dat
    rfl
  · intro sessionId dat hd
    simp [mongoDocOf, hd, neqFalse]
  · intro r
    rcases hr : r.detected with _ | b
    · simp [pgViewOfRow, hr]
    · cases b <;> simp [pgViewOfRow, hr]
  · intro st sessionId d hmc hfd
    constructor
    · simp [coordGetSession, mongoGetSession, hmc, hfd]
    · rcases hd : d.detected with _ | _ | b | s | n
      case jbool => cases b <;> simp [formatSessionData, mongoViewOfDoc, neqFalse, hd]
      all_goals simp [formatSessionData, mongoViewOfDoc, neqFalse, hd]

/-- Witness for C10: a save input omitting `detected` persists
`detected = true`, and reading `session_7` back through the coordinator
reports its stored `detected = false` faithfully. -/
theorem c10_witness :
    (mongoDocOf "session_9"
        { userId := some "9", telegramId := some "9", phoneNumber := none
          isConnected := none, connectionStatus := none
          reconnectAttempts := none, source := none
          detected := .jundef }).detected = .jbool true
    ∧ coordGetSession store7 "session_7" =
        some (formatSessionData (mongoViewOfDoc doc7)) :=
  ⟨c10_detected_coercion.2.2.2.1 "session_9" _ rfl,
   (c10_detected_coercion.2.2.2.2.2 store7 "session_7" doc7 rfl (by decide)).1⟩

/-- Claim C8: coordinator `saveSession` and `updateSession` attempt the write
on every connected backend and succeed exactly when at least one attempted
backend accepts it (logical OR of the adapter results, each of which is
false when its backend is unreachable or rejects). -/
theorem c8_save_update_or (st : StoreState) (mErr pErr : Bool)
    (sessionId : String) (d : SessionData) (u : UpdateData) :
    ((coordSaveSession st mErr pErr sessionId d).2
       = ((mongoSaveSession st mErr sessionId d).2
           || (pgSaveSession (mongoSaveSession st mErr sessionId d).1 pErr
                sessionId d).2))
    ∧ ((mongoSaveSession st mErr sessionId d).2 = true →
        st.mongoConnected = true)
    ∧ ((pgSaveSession (mongoSaveSession st mErr sessionId d).1 pErr
          sessionId d).2 = true → st.pgConnected = true)
    ∧ ((coordUpdateSession st mErr pErr sessionId u).2
       = ((mongoUpdateSession st mErr sessionId u).2
           || (pgUpdateSession (mongoUpdateSession st mErr sessionId u).1 pErr
                sessionId u).2))
    ∧ ((mongoUpdateSession st mErr sessionId u).2 = true →
        st.mongoConnected = true)
    ∧ ((pgUpdateSession (mongoUpdateSession st mErr sessionId u).1 pErr
          sessionId u).2 = true → st.pgConnected = true) := by
  refine ⟨?_, ?_, ?_, ?_, ?_, ?_⟩
  · by_cases hm : st.mongoConnected = true
    · simp only [coordSaveSession, hm, if_true]
      by_cases hp : (mongoSaveSession st mErr sessionId d).1.pgConnected = true
      · simp [hp]
      · have hp2 : (mongoSaveSession st mErr sessionId d).1.pgConnected = false := by
          simpa using hp
        simp [hp2, pgSaveSession]
    · have hm2 : st.mongoConnected = false := by simpa using hm
      have hms : mongoSaveSession st mErr sessionId d = (st, false) := by
        simp [mongoSaveSession, hm2]
      simp only [coordSaveSession, hm2, Bool.false_eq_true, if_false, hms]
      by_cases hp : st.pgConnected = true
      · simp [hp]
      · have hp2 : st.pgConnected = false := by simpa using hp
        simp [hp2, pgSaveSession]
  · intro h
    by_contra hm
    have hm2 : st.mongoConnected = false := by simpa using hm
    simp [mongoSaveSession, hm2] at h
  · intro h
    by_contra hp
    have hp2 : st.pgConnected = false := by simpa using hp
    have hfr := (mongoSaveSession_flags st mErr sessionId d).2
    rw [hp2] at hfr
    simp [pgSaveSession, hfr] at h
  · by_cases hm : st.mongoConnected = true
    · simp only [coordUpdateSession, hm, if_true]
      by_cases hp : (mongoUpdateSession st mErr sessionId u).1.pgConnected = true
      · simp [hp]
      · have hp2 : (mongoUpdateSession st mErr sessionId u).1.pgConnected = false := by
          simpa using hp
        simp [hp2, pgUpdateSession]
    · have hm2 : st.mongoConnected = false := by simpa using hm
      have hms : mongoUpdateSession st mErr sessionId u = (st, false) := by
        simp [mongoUpdateSession, hm2]
      simp only [coordUpdateSession, hm2, Bool.false_eq_true, if_false, hms]
      by_cases hp : st.pgConnected = true
      · simp [hp]
      · have hp2 : st.pgConnected = false := by simpa using hp
        simp [hp2, pgUpdateSession]
  · intro h
    by_contra hm
    have hm2 : st.mongoConnected = false := by simpa using hm
    simp [mongoUpdateSession, hm2] at h
  · intro h
    by_contra hp
    have hp2 : st.pgConnected = false := by simpa using hp
    have hfr := (mongoUpdateSession_flags st mErr sessionId u).2
    rw [hp2] at hfr
    simp [pgUpdateSession, hfr] at h

/-- Witness for C8: the OR composition at a concrete store with only MongoDB
reachable, for a save and an update. -/
theorem c8_witness :
    ((coordSaveSession store7 false false "session_7"
        (initialSaveData pOk)).2
      = ((mongoSaveSession store7 false "session_7" (initialSaveData pOk)).2
          || (pgSaveSession
                (mongoSaveSession store7 false "session_7"
                  (initialSaveData pOk)).1 false "session_7"
                (initialSaveData pOk)).2))
    ∧ ((coordUpdateSession store7 false false "session_7" updDisconnected).2
      = ((mongoUpdateSession store7 false "session_7" updDisconnected).2
          || (pgUpdateSession
                (mongoUpdateSession store7 false "session_7"
                  updDisconnected).1 false "session_7" updDisconnected).2)) :=
  ⟨(c8_save_update_or store7 false false "session_7" (initialSaveData pOk)
      updDisconnected).1,
   (c8_save_update_or store7 false false "session_7" (initialSaveData pOk)
      updDisconnected).2.2.2.1⟩

lemma cleanupAuthState_apply (st : StoreState) (sid : String)
    (hmc : st.mongoConnected = true) :
    (cleanupAuthState st sid).1 =
      { st with authBlobs := st.authBlobs.filter (fun b => !(b.sessionId == sid)) } := by
  simp [cleanupAuthState, mongoDeleteAuthState, hmc]

lemma close401_store (st : StoreState) (sid : String)
    (hmc : st.mongoConnected = true) :
    (cleanupAuthState (coordUpdateSession st false false sid
        updDisconnected).1 sid).1.mongoSessions
      = mongoUpdFirst st.mongoSessions sid updDisconnected
    ∧ (cleanupAuthState (coordUpdateSession st false false sid
        updDisconnected).1 sid).1.authBlobs
      = st.authBlobs.filter (fun b => !(b.sessionId == sid))
    ∧ (st.pgConnected = true →
        (cleanupAuthState (coordUpdateSession st false false sid
            updDisconnected).1 sid).1.pgUsers
          = st.pgUsers.map (fun r =>
              if r.sessionId == some sid then applyPgUpd r updDisconnected
              else r))
    ∧ (cleanupAuthState (coordUpdateSession st false false sid
        updDisconnected).1 sid).1.mongoConnected = st.mongoConnected
    ∧ (cleanupAuthState (coordUpdateSession st false false sid
        updDisconnected).1 sid).1.pgConnected = st.pgConnected := by
  have hset : pgAnySet updDisconnected = true := by decide
  have hmu : mongoUpdateSession st false sid updDisconnected =
      ({ st with
          mongoSessions := mongoUpdFirst st.mongoSessions sid updDisconnected },
       st.mongoSessions.any (fun d => d.sessionId == sid)) := by
    simp [mongoUpdateSession, hmc]
  by_cases hp : st.pgConnected = true
  · have hcu : (coordUpdateSession st false false sid updDisconnected).1 =
        { st with
            mongoSessions := mongoUpdFirst st.mongoSessions sid updDisconnected
            pgUsers := st.pgUsers.map (fun r =>
              if r.sessionId == some sid then applyPgUpd r updDisconnected
              else r) } := by
      simp [coordUpdateSession, hmc, hmu, pgUpdateSession, hp, hset]
    rw [hcu]
    rw [cleanupAuthState_apply
      { st with
          mongoSessions := mongoUpdFirst st.mongoSessions sid updDisconnected
          pgUsers := st.pgUsers.map (fun r =>
            if r.sessionId == some sid then applyPgUpd r updDisconnected
            else r) } sid hmc]
    exact ⟨rfl, rfl, fun _ => rfl, rfl, rfl⟩
  · have hp2 : st.pgConnected = false := by simpa using hp
    have hcu : (coordUpdateSession st false false sid updDisconnected).1 =
        { st with mongoSessions :=
            mongoUpdFirst st.mongoSessions sid updDisconnected } := by
      simp [coordUpdateSession, hmc, hmu, hp2]
    rw [hcu]
    rw [cleanupAuthState_apply
      { st with mongoSessions :=
          mongoUpdFirst st.mongoSessions sid updDisconnected } sid hmc]
    refine ⟨rfl, rfl, fun hpc => ?_, rfl, rfl⟩
    rw [hp2] at hpc
    exact absurd hpc (by simp)

/-- Claim C5: a close event with status code 401 on a session that has not
been handed off marks the persisted record `isConnected = false`,
`connectionStatus = "disconnected"` (on every reachable backend), purges all
credential blobs for the sessionId, tears the transport down, discards both
in-process registry entries, emits only the error-callback effect, and
schedules no reconnect. -/
theorem c5_close401 (m : Manager) (sessionId : String) (sock : Socket)
    (cb : Callbacks)
    (hho : m.handoffComplete.contains sessionId = false)
    (hmc : m.store.mongoConnected = true) :
    (handleClose m sessionId sock cb (some 401)).2.2
      = (if cb.hasOnError then [Effect.onError] else [])
    ∧ (∀ d, findDoc (handleClose m sessionId sock cb
          (some 401)).1.store.mongoSessions sessionId = some d →
        d.isConnected = false ∧ d.connectionStatus = "disconnected")
    ∧ (m.store.pgConnected = true →
        ∀ r ∈ (handleClose m sessionId sock cb (some 401)).1.store.pgUsers,
          r.sessionId = some sessionId →
          r.isConnected = false ∧ r.connectionStatus = "disconnected")
    ∧ (handleClose m sessionId sock cb (some 401)).1.store.authBlobs.filter
        (fun b => b.sessionId == sessionId) = []
    ∧ mapGet (handleClose m sessionId sock cb
        (some 401)).1.activeSockets sessionId = none
    ∧ mapGet (handleClose m sessionId sock cb
        (some 401)).1.sessionState sessionId = none
    ∧ (handleClose m sessionId sock cb (some 401)).2.1.user = none
    ∧ (handleClose m sessionId sock cb (some 401)).2.1.listeners = false
    ∧ (sock.wsReadyState = 1 →
        (handleClose m sessionId sock cb (some 401)).2.1.closedWith
          = some 1000) := by
  have he : handleClose m sessionId sock cb (some 401) =
      ({ m with
          store := (cleanupAuthState (coordUpdateSession m.store false false
            sessionId updDisconnected).1 sessionId).1
          activeSockets := mapErase m.activeSockets sessionId
          sessionState := mapErase m.sessionState sessionId },
       (cleanupSocketOnly sock).1,
       if cb.hasOnError then [Effect.onError] else []) := by
    unfold handleClose
    rw [hho]
    simp
  rw [he]
  obtain ⟨hms, hab, hpg, hmcf, hpgf⟩ := close401_store m.store sessionId hmc
  refine ⟨rfl, ?_, ?_, ?_, mapGet_mapErase_self _ _, mapGet_mapErase_self _ _,
    rfl, rfl, ?_⟩
  · intro d hd
    simp only [hms] at hd
    rw [findDoc_updFirst] at hd
    rcases hfd : findDoc m.store.mongoSessions sessionId with _ | d0
    · rw [hfd] at hd
      cases hd
    · rw [hfd] at hd
      have hd2 : applyMongoUpd d0 updDisconnected = d := by
        simpa using hd
      rw [← hd2]
      exact ⟨rfl, rfl⟩
  · intro hpc r hr hrs
    rw [hpg hpc] at hr
    rcases List.mem_map.mp hr with ⟨r0, hr0, heq⟩
    by_cases hs0 : (r0.sessionId == some sessionId) = true
    · rw [if_pos hs0] at heq
      rw [← heq]
      constructor
      · rfl
      · simp [applyPgUpd, updDisconnected, updNothing]
    · rw [if_neg hs0] at heq
      rw [← heq] at hrs
      rw [hrs] at hs0
      exact absurd (by simp) hs0
  · simp only [hab]
    exact filter_not_filter _ _
  · intro hw
    simp [cleanupSocketOnly, hw]

lemma findDoc_sessionId (l : List MongoDoc) (sid : String) (d : MongoDoc)
    (h : findDoc l sid = some d) : d.sessionId = sid := by
  induction l with
  | nil => simp [findDoc] at h
  | cons d0 t ih =>
      simp only [findDoc] at h
      by_cases h0 : (d0.sessionId == sid) = true
      · rw [if_pos h0] at h
        have hd : d0 = d := by simpa using h
        rw [← hd]
        simpa using h0
      · rw [if_neg h0] at h
        exact ih h

/-- Witness for C5: after a 401 close on `session_7`, zero credential blobs
remain for it and only the error callback fires. -/
theorem c5_witness :
    (handleClose mgr7 "session_7" liveSock cbBoth
        (some 401)).1.store.authBlobs.filter
      (fun b => b.sessionId == "session_7") = []
    ∧ (handleClose mgr7 "session_7" liveSock cbBoth (some 401)).2.2
        = (if cbBoth.hasOnError then [Effect.onError] else []) :=
  ⟨(c5_close401 mgr7 "session_7" liveSock cbBoth (by decide) rfl).2.2.2.1,
   (c5_close401 mgr7 "session_7" liveSock cbBoth (by decide) rfl).1⟩

/-- Counterexample to claim C6 as stated: after the 401 close of
`session_7`, the session is still returned by `getAllSessions` — the 401
path updates the record and purges the blobs but never deletes the record
(it does not run `performCompleteUserCleanup`). -/
theorem c6_counterexample :
    ((coordGetAllSessions (handleClose mgr7 "session_7" liveSock cbBoth
        (some 401)).1.store).map (fun v => v.sessionId)) = ["session_7"]
    ∧ (handleClose mgr7 "session_7" liveSock cbBoth
        (some 401)).1.store.authBlobs.filter
      (fun b => b.sessionId == "session_7") = [] := by
  exact ⟨by decide, by decide⟩

/-- Claim C6 (amended): a close event with statusCode 401 on a session with
a persisted record leaves that session still present in `getAllSessions`,
marked disconnected, with zero CredentialBlob entries remaining; the 401
path does not invoke `performCompleteUserCleanup`, so the record is not
deleted. -/
theorem c6_close401_getAll (m : Manager) (sessionId : String) (sock : Socket)
    (cb : Callbacks) (d0 : MongoDoc)
    (hho : m.handoffComplete.contains sessionId = false)
    (hmc : m.store.mongoConnected = true)
    (hpg : m.store.pgConnected = false)
    (hrec : findDoc m.store.mongoSessions sessionId = some d0) :
    ((coordGetAllSessions (handleClose m sessionId sock cb
        (some 401)).1.store).any (fun v =>
          v.sessionId == sessionId && !v.isConnected
            && (v.connectionStatus == "disconnected"))) = true
    ∧ (handleClose m sessionId sock cb
        (some 401)).1.store.authBlobs.filter
      (fun b => b.sessionId == sessionId) = [] := by
  have he : handleClose m sessionId sock cb (some 401) =
      ({ m with
          store := (cleanupAuthState (coordUpdateSession m.store false false
            sessionId updDisconnected).1 sessionId).1
          activeSockets := mapErase m.activeSockets sessionId
          sessionState := mapErase m.sessionState sessionId },
       (cleanupSocketOnly sock).1,
       if cb.hasOnError then [Effect.onError] else []) := by
    unfold handleClose
    rw [hho]
    simp
  rw [he]
  obtain ⟨hms, hab, hpgrows, hmcf, hpgf⟩ := close401_store m.store sessionId hmc
  constructor
  · have hall : coordGetAllSessions (cleanupAuthState (coordUpdateSession
        m.store false false sessionId updDisconnected).1 sessionId).1 =
        (mongoUpdFirst m.store.mongoSessions sessionId
          updDisconnected).map (formatSessionData ∘ mongoViewOfDoc) := by
      simp [coordGetAllSessions, mongoGetAllSessions, hpgf, hpg, hmcf, hmc, hms]
    rw [hall]
    refine List.any_eq_true.mpr
      ⟨(formatSessionData ∘ mongoViewOfDoc) (applyMongoUpd d0 updDisconnected),
       ?_, ?_⟩
    · exact List.mem_map.mpr
        ⟨applyMongoUpd d0 updDisconnected,
         mem_updFirst_of_findDoc _ _ _ _ hrec, rfl⟩
    · have h1 : (applyMongoUpd d0 updDisconnected).sessionId = sessionId := by
        rw [applyMongoUpd_sessionId]
        exact findDoc_sessionId _ _ _ hrec
      simp [formatSessionData, mongoViewOfDoc, h1, Function.comp,
        applyMongoUpd, updDisconnected, updNothing]
      exact findDoc_sessionId _ _ _ hrec
  · simp only [hab]
    exact filter_not_filter _ _

/-- Witness for C6 (amended) at `session_7`. -/
theorem c6_witness :
    ((coordGetAllSessions (handleClose mgr7 "session_7" liveSock cbBoth
        (some 401)).1.store).any (fun v =>
          v.sessionId == "session_7" && !v.isConnected
            && (v.connectionStatus == "disconnected"))) = true :=
  (c6_close401_getAll mgr7 "session_7" liveSock cbBoth doc7
    (by decide) rfl rfl (by decide)).1

lemma mapGet_mapSet_self {A : Type} (l : List (String × A)) (k : String)
    (v : A) : mapGet (mapSet l k v) k = some v := by
  induction l with
  | nil => simp [mapSet, mapGet]
  | cons p t ih =>
      simp only [mapSet]
      by_cases h : p.1 = k
      · simp [h, mapGet]
      · simp [h, mapGet, ih]

lemma pgUpdateSession_mongo (st : StoreState) (e : Bool) (sid : String)
    (u : UpdateData) :
    (pgUpdateSession st e sid u).1.mongoSessions = st.mongoSessions := by
  unfold pgUpdateSession
  split
  · rfl
  split
  · rfl
  split
  · rfl
  · rfl

lemma coordUpd_mongo (st : StoreState) (sid : String) (u : UpdateData)
    (hmc : st.mongoConnected = true) :
    (coordUpdateSession st false false sid u).1.mongoSessions
      = mongoUpdFirst st.mongoSessions sid u := by
  have hmu : mongoUpdateSession st false sid u =
      ({ st with mongoSessions := mongoUpdFirst st.mongoSessions sid u },
       st.mongoSessions.any (fun d => d.sessionId == sid)) := by
    simp [mongoUpdateSession, hmc]
  have hpm : ∀ st2 : StoreState,
      (pgUpdateSession st2 false sid u).1.mongoSessions = st2.mongoSessions :=
    fun st2 => pgUpdateSession_mongo st2 false sid u
  by_cases hp : st.pgConnected = true <;>
    simp [coordUpdateSession, hmu, hp, hpm, hmc]

lemma markDisc_find (m2 : Manager) (sid : String)
    (hmc2 : m2.store.mongoConnected = true) :
    ∀ d, findDoc (markDisc m2 sid).store.mongoSessions sid = some d →
      d.isConnected = false ∧ d.connectionStatus = "disconnected" := by
  intro d hd
  simp only [markDisc] at hd
  rw [coordUpd_mongo _ _ _ hmc2] at hd
  rw [findDoc_updFirst] at hd
  rcases hfd : findDoc m2.store.mongoSessions sid with _ | d0
  · rw [hfd] at hd
    cases hd
  · rw [hfd] at hd
    have hd2 : applyMongoUpd d0 updDisconnected = d := by
      simpa using hd
    rw [← hd2]
    exact ⟨rfl, rfl⟩

/-- Claim C7: a close event with status code 515 on a session that has not
been handed off marks the record reconnecting with `detected = false`,
notifies the error callback and arms a 3000 ms reconnect timer; the timer
body reads the record back and recreates a connection with
`allowPairing = false` reusing the persisted phone number, registering the
new handle and re-attaching the handler on success; it marks the record
disconnected when the phone number is missing or the provider fails. -/
theorem c7_close515 (m : Manager) (sessionId : String) (sock : Socket)
    (cb : Callbacks)
    (hho : m.handoffComplete.contains sessionId = false)
    (hmc : m.store.mongoConnected = true) :
    (handleClose m sessionId sock cb (some 515)).2.2
      = (if cb.hasOnError then [Effect.onError] else [])
          ++ [Effect.scheduleReconnect 3000]
    ∧ (∀ d, findDoc (handleClose m sessionId sock cb
          (some 515)).1.store.mongoSessions sessionId = some d →
        d.isConnected = false ∧ d.connectionStatus = "reconnecting"
          ∧ d.detected = JValue.jbool false)
    ∧ (handleClose m sessionId sock cb (some 515)).1.activeSockets
        = m.activeSockets
    ∧ (∀ m2 : Manager, ∀ provider : Option String → Bool → Option Socket,
        m2.store.mongoConnected = true →
        (∀ v, coordGetSession m2.store sessionId = some v →
          jsTruthy v.phoneNumber = false) →
        (reconnect515 m2 sessionId cb provider).2 = []
        ∧ (∀ d, findDoc (reconnect515 m2 sessionId cb
              provider).1.store.mongoSessions sessionId = some d →
            d.isConnected = false ∧ d.connectionStatus = "disconnected"))
    ∧ (∀ m2 : Manager, ∀ provider : Option String → Bool → Option Socket,
        ∀ v : SessionView, ∀ pn : String, ∀ ns : Socket,
        coordGetSession m2.store sessionId = some v →
        v.phoneNumber = some pn → pn ≠ "" →
        provider (some pn) false = some ns →
        mapGet (reconnect515 m2 sessionId cb provider).1.activeSockets
          sessionId = some { ns with connectionCallbacks := some cb }
        ∧ (reconnect515 m2 sessionId cb provider).2
          = [Effect.createConn (some pn) false, Effect.attachHandler]
        ∧ (reconnect515 m2 sessionId cb provider).1.store = m2.store)
    ∧ (∀ m2 : Manager, ∀ provider : Option String → Bool → Option Socket,
        ∀ v : SessionView, ∀ pn : String,
        m2.store.mongoConnected = true →
        coordGetSession m2.store sessionId = some v →
        v.phoneNumber = some pn → pn ≠ "" →
        provider (some pn) false = none →
        (reconnect515 m2 sessionId cb provider).2
          = [Effect.createConn (some pn) false]
        ∧ (∀ d, findDoc (reconnect515 m2 sessionId cb
              provider).1.store.mongoSessions sessionId = some d →
            d.isConnected = false ∧ d.connectionStatus = "disconnected")) := by
  have he : handleClose m sessionId sock cb (some 515) =
      ({ m with store := (coordUpdateSession m.store false false sessionId
          updReconnecting).1 },
       sock,
       (if cb.hasOnError then [Effect.onError] else [])
         ++ [Effect.scheduleReconnect 3000]) := by
    unfold handleClose
    rw [hho]
    simp
  refine ⟨by rw [he], ?_, by rw [he], ?_, ?_, ?_⟩
  · intro d hd
    rw [he] at hd
    simp only at hd
    rw [coordUpd_mongo _ _ _ hmc] at hd
    rw [findDoc_updFirst] at hd
    rcases hfd : findDoc m.store.mongoSessions sessionId with _ | d0
    · rw [hfd] at hd
      cases hd
    · rw [hfd] at hd
      have hd2 : applyMongoUpd d0 updReconnecting = d := by
        simpa using hd
      rw [← hd2]
      exact ⟨rfl, rfl, rfl⟩
  · intro m2 provider hmc2 hnophone
    rcases hget : coordGetSession m2.store sessionId with _ | v
    · have hr : reconnect515 m2 sessionId cb provider =
          (markDisc m2 sessionId, []) := by
        simp [reconnect515, hget]
      rw [hr]
      exact ⟨rfl, markDisc_find m2 sessionId hmc2⟩
    · have hph := hnophone v hget
      have hr : reconnect515 m2 sessionId cb provider =
          (markDisc m2 sessionId, []) := by
        simp [reconnect515, hget, hph]
      rw [hr]
      exact ⟨rfl, markDisc_find m2 sessionId hmc2⟩
  · intro m2 provider v pn ns hget hpn hpne hprov
    have hph2 : jsTruthy (some pn) = true := by
      show (!(pn == "")) = true
      simpa using hpne
    have hph : jsTruthy v.phoneNumber = true := by
      rw [hpn]
      exact hph2
    have hr : reconnect515 m2 sessionId cb provider =
        ({ m2 with
            activeSockets := mapSet m2.activeSockets sessionId { ns with connectionCallbacks := some cb } },
         [Effect.createConn (some pn) false, Effect.attachHandler]) := by
      simp [reconnect515, hget, hph, hph2, hpn, hprov]
    rw [hr]
    exact ⟨mapGet_mapSet_self _ _ _, rfl, rfl⟩
  · intro m2 provider v pn hmc2 hget hpn hpne hprov
    have hph2 : jsTruthy (some pn) = true := by
      show (!(pn == "")) = true
      simpa using hpne
    have hph : jsTruthy v.phoneNumber = true := by
      rw [hpn]
      exact hph2
    have hr : reconnect515 m2 sessionId cb provider =
        (markDisc m2 sessionId, [Effect.createConn (some pn) false]) := by
      simp [reconnect515, hget, hph, hph2, hpn, hprov]
    rw [hr]
    exact ⟨rfl, markDisc_find m2 sessionId hmc2⟩

/-- Witness for C7: the 515 close on `session_7` arms the reconnect effects,
and the timer body re-registers a fresh handle reusing the persisted phone
number. -/
theorem c7_witness :
    (handleClose mgr7 "session_7" liveSock cbBoth (some 515)).2.2
      = (if cbBoth.hasOnError then [Effect.onError] else [])
          ++ [Effect.scheduleReconnect 3000]
    ∧ mapGet (reconnect515 mgr7 "session_7" cbBoth
        provAlways).1.activeSockets "session_7"
      = some { newSock with connectionCallbacks := some cbBoth } :=
  ⟨(c7_close515 mgr7 "session_7" liveSock cbBoth (by decide) rfl).1,
   ((c7_close515 mgr7 "session_7" liveSock cbBoth (by decide) rfl).2.2.2.2.1
      mgr7 provAlways (formatSessionData (mongoViewOfDoc doc7)) "15550001"
      newSock (by decide) (by decide) (by decide) rfl).1⟩

lemma lockAndGo_store (m : Manager) (p : CParams) (s : String) :
    (lockAndGo m p s).1.store = m.store := by
  unfold lockAndGo
  split <;> rfl

lemma createSessionRun_of_entry_done (m : Manager) (p : CParams)
    (m2 : Manager) (r : Option (Option Socket))
    (h : stepProc m p .entry = (m2, .done r)) :
    createSessionRun m p = (m2, .done r) := by
  unfold createSessionRun
  have h7 : runProc 7 m p .entry =
      runProc 6 (stepProc m p .entry).1 p (stepProc m p .entry).2 := rfl
  rw [h7, h]
  rfl

/-- Counterexample to claim C3 as stated: while a `createSession("7")` call
is suspended in the provider call (the in-flight creation has not yet
registered a handle), a second call for the same sessionId hits the
initializing guard and returns `undefined` — not "a non-null handle for the
in-flight creation". -/
theorem c3_counterexample :
    (run c3start [0]).mgr.initializing = ["session_7"]
    ∧ (run c3start [0]).procs.map (fun q => q.2) = [PC.connecting, PC.entry]
    ∧ (run c3start [0, 1]).procs.map (fun q => q.2)
        = [PC.connecting, PC.done (some none)] := by
  exact ⟨by decide, by decide, by decide⟩

/-- Claim C3 (amended): a `createSession` call entering while the sessionId
is in the initializing set returns whatever handle the active-socket
registry currently holds for it — possibly nothing, since an in-flight
creation registers its handle only after the provider call returns; if the
sessionId is handed off it returns nothing; a live existing handle (when not
reconnecting) is returned unchanged; a dead existing handle is torn down
transport-only (store untouched, registry entry dropped) before the call
proceeds. -/
theorem c3_create_dispatch (m : Manager) (p : CParams) :
    (m.initializing.contains (sessionIdOf p.userIdStr) = true →
      createSessionRun m p =
        ({ m with initializing :=
            setErase m.initializing (sessionIdOf p.userIdStr) },
         .done (some (mapGet m.activeSockets (sessionIdOf p.userIdStr)))))
    ∧ (m.initializing.contains (sessionIdOf p.userIdStr) = false →
       m.handoffComplete.contains (sessionIdOf p.userIdStr) = true →
       createSessionRun m p =
        ({ m with initializing :=
            setErase m.initializing (sessionIdOf p.userIdStr) },
         .done (some none)))
    ∧ (∀ ex : Socket,
        m.initializing.contains (sessionIdOf p.userIdStr) = false →
        m.handoffComplete.contains (sessionIdOf p.userIdStr) = false →
        mapGet m.activeSockets (sessionIdOf p.userIdStr) = some ex →
        p.isReconnect = false → isLive ex = true →
        createSessionRun m p =
          ({ m with initializing :=
              setErase m.initializing (sessionIdOf p.userIdStr) },
           .done (some (some ex))))
    ∧ (∀ ex : Socket,
        m.initializing.contains (sessionIdOf p.userIdStr) = false →
        m.handoffComplete.contains (sessionIdOf p.userIdStr) = false →
        mapGet m.activeSockets (sessionIdOf p.userIdStr) = some ex →
        p.isReconnect = false → isLive ex = false →
        stepProc m p .entry = (m, .deadCleanup ex)
        ∧ (stepProc m p (.deadCleanup ex)).1.store = m.store
        ∧ mapGet (stepProc m p (.deadCleanup ex)).1.activeSockets
            (sessionIdOf p.userIdStr) = none) := by
  refine ⟨?_, ?_, ?_, ?_⟩
  · intro h
    have h0 : sessionIdOf p.userIdStr ∈ m.initializing := by simpa using h
    apply createSessionRun_of_entry_done
    simp [stepProc, h0]
  · intro h1 h2
    have h10 : sessionIdOf p.userIdStr ∉ m.initializing := by simpa using h1
    have h20 : sessionIdOf p.userIdStr ∈ m.handoffComplete := by simpa using h2
    apply createSessionRun_of_entry_done
    simp [stepProc, h10, h20]
  · intro ex h1 h2 hma hnr hlive
    have h10 : sessionIdOf p.userIdStr ∉ m.initializing := by simpa using h1
    have h20 : sessionIdOf p.userIdStr ∉ m.handoffComplete := by simpa using h2
    apply createSessionRun_of_entry_done
    simp [stepProc, h10, h20, hma, hnr, hlive]
  · intro ex h1 h2 hma hnr hlive
    have h10 : sessionIdOf p.userIdStr ∉ m.initializing := by simpa using h1
    have h20 : sessionIdOf p.userIdStr ∉ m.handoffComplete := by simpa using h2
    refine ⟨by simp [stepProc, h10, h20, hma, hnr, hlive], ?_, ?_⟩
    · show (lockAndGo _ p (sessionIdOf p.userIdStr)).1.store = m.store
      rw [lockAndGo_store]
    · show mapGet (lockAndGo _ p (sessionIdOf p.userIdStr)).1.activeSockets
        (sessionIdOf p.userIdStr) = none
      rw [lockAndGo_active]
      exact mapGet_mapErase_self _ _

/-- Witness for C3 (amended): a handed-off session returns nothing; a live
`session_7` handle is returned unchanged. -/
theorem c3_witness :
    createSessionRun mgrHandedOff { pOk with userIdStr := "1" } =
      ({ mgrHandedOff with
          initializing := setErase mgrHandedOff.initializing "session_1" },
       .done (some none))
    ∧ createSessionRun mgr7 pOk =
      ({ mgr7 with initializing := setErase mgr7.initializing "session_7" },
       .done (some (some liveSock))) :=
  ⟨(c3_create_dispatch mgrHandedOff { pOk with userIdStr := "1" }).2.1
      (by decide) (by decide),
   (c3_create_dispatch mgr7 pOk).2.2.1 liveSock (by decide) (by decide)
      (by decide) rfl rfl⟩

/-- Counterexample to claim C4 as stated: an interleaving of two
`createSession("7")` calls racing over a dead registered handle in which one
call successfully registers its new handle yet the final registry holds
ZERO handles for the sessionId — the other call, resumed from its dead-handle
cleanup, deletes the fresh registration and then fails its provider call.
"Exactly one registered handle" is violated (at most one still holds). -/
theorem c4_counterexample :
    allDone (run c4start [0, 1, 1, 1, 1, 0, 0]) = true
    ∧ ((run c4start [0, 1, 1, 1, 1, 0, 0]).procs.map (fun q => q.2))
        = [PC.done none,
           PC.done (some (some { newSock with connectionCallbacks := some cbBoth }))]
    ∧ countKey (run c4start [0, 1, 1, 1, 1, 0, 0]).mgr.activeSockets
        "session_7" = 0 := by
  exact ⟨by decide, by decide, by decide⟩

/-- Claim C4 (amended): under any interleaving of any number of
`createSession` calls, the active-socket registry holds at most one handle
per sessionId (never two — the registry is keyed by sessionId), and the
sessionId is removed from the initializing set on every exit path including
exceptional ones: once every call has finished, no sessionId remains in the
initializing set. -/
theorem c4_create_concurrent (c0 : Config) (sched : List Nat)
    (hkeys : keysNodup c0.mgr.activeSockets = true)
    (hinv : InitInv c0) :
    (∀ sid, countKey (run c0 sched).mgr.activeSockets sid ≤ 1)
    ∧ (allDone (run c0 sched) = true →
        ∀ sid, sid ∉ (run c0 sched).mgr.initializing) := by
  obtain ⟨hk, hi⟩ := run_preserves sched c0 hkeys hinv
  refine ⟨fun sid => countKey_le_one _ sid hk, fun hd sid hmem => ?_⟩
  obtain ⟨q, hq, _, hin⟩ := hi sid hmem
  have hdq : isDone q.2 = true := List.all_eq_true.mp hd q hq
  rw [inFlight_isDone q.2 hin] at hdq
  cases hdq

/-- Witness for C4 (amended) on the concrete racing interleaving. -/
theorem c4_witness :
    countKey (run c4start [0, 1, 1, 1, 1, 0, 0]).mgr.activeSockets
      "session_7" ≤ 1
    ∧ "session_7" ∉ (run c4start [0, 1, 1, 1, 1, 0, 0]).mgr.initializing :=
  ⟨(c4_create_concurrent c4start [0, 1, 1, 1, 1, 0, 0] (by decide)
      (fun sid hs => absurd hs (List.not_mem_nil sid))).1 "session_7",
   (c4_create_concurrent c4start [0, 1, 1, 1, 1, 0, 0] (by decide)
      (fun sid hs => absurd hs (List.not_mem_nil sid))).2 (by decide)
     "session_7"⟩
